import Mathlib

/-!
Verification of the jhgriggs/ArduinoProjects traffic-light programs.

Two variants are embedded:
* `TL`  — `src/TrafficLights/TrafficLights.ino`: a single `DigitalLed` object
  whose pin number is reassigned as the vehicle phase changes.
* `TLB` — `src/unnamed/part_000` (`TrafficLightsButton.ino`): three
  `TimedDigitalLed` objects, with a pointer to the current one.

The `DigitalLed` / `TimedDigitalLed` / `PushButton` classes live in the
external jhgriggs/ArduinoLibraries repository and are not part of this
repository's sources; their timing behaviour (the active timer accumulates
the per-tick delta, `resetLed` zeroes it, a `TimedDigitalLed` stops being
active once its timer reaches its duration, and the button yields a
debounced-edge boolean each tick) is modelled from the spec, which lists
them as external collaborators with exactly that contract.

Each call of `loop()` is one *tick*; the tick consumes the time delta
`deltaMillis` and the debounced button edge for that iteration.  `millis()`
and `previousMillis` bookkeeping is external clock plumbing, so the tick
functions take the delta directly.
-/

set_option maxHeartbeats 1000000

namespace TrafficSim

/-- Abstract vehicle phase, shared by both variants for cross-variant
statements. -/
inductive Phase where
  | green
  | yellow
  | red
deriving Repr, DecidableEq

/-- Cyclic successor of a vehicle phase: green to yellow to red to green. -/
def Phase.next : Phase → Phase
  | .green => .yellow
  | .yellow => .red
  | .red => .green

/-- Abstract pedestrian phase (spec section 4.2). -/
inductive PedPhase where
  | walk
  | blinking
  | dontWalk
deriving Repr, DecidableEq

/-- What the tick drives on the pedestrian LED: a steady signal on a pin, a
blinking signal on a pin, or nothing (the yellow branch never touches the
pedestrian LED). -/
inductive PedEmit where
  | steady (pin : Nat)
  | blinking (pin : Nat)
  | noEmit
deriving Repr, DecidableEq

namespace TL

-- LED pin numbers for vehicle lights (TrafficLights.ino lines 32-34).
def RED_PIN : Nat := 12
def YELLOW_PIN : Nat := 8
def GREEN_PIN : Nat := 7

-- LED pin numbers for pedestrian lights (lines 37-38).
def WALK_PIN : Nat := 2
def NO_WALK_PIN : Nat := 4

-- Active duration for each vehicle light (lines 41-43).
def RED_DURATION : Nat := 10000
def YELLOW_DURATION : Nat := 2000
def GREEN_DURATION : Nat := 15000

-- Blink interval for blinking warning (line 46).
def WARNING_BLINK_INTERVAL : Nat := 500

-- Debounce delay for walk request button (line 55).
def WALK_BUTTON_DEBOUNCE : Nat := 50

/-- Modelled from the spec: the `DigitalLed` class of the external
ArduinoLibraries repository, reduced to the two observables `loop()` reads:
the pin number and the elapsed-active timer (milliseconds). -/
structure DigitalLed where
  ledPinNumber : Nat
  activeTimer : Nat
deriving Repr, DecidableEq

/-- Modelled from the spec: `showSteadyLed(deltaMillis)` drives the LED and
accumulates the active timer by the tick's delta. -/
def DigitalLed.showSteadyLed (led : DigitalLed) (deltaMillis : Nat) : DigitalLed :=
  { led with activeTimer := led.activeTimer + deltaMillis }

/-- Modelled from the spec: `showBlinkingLed(deltaMillis, interval)` drives
the LED toggling at the interval; the toggle state is internal to the LED
driver, so only the timer accumulation is observable here. -/
def DigitalLed.showBlinkingLed (led : DigitalLed) (deltaMillis : Nat)
    (_interval : Nat) : DigitalLed :=
  { led with activeTimer := led.activeTimer + deltaMillis }

/-- Modelled from the spec: `resetLed()` turns the LED off and zeroes its
timer; the pin number is unchanged. -/
def DigitalLed.resetLed (led : DigitalLed) : DigitalLed :=
  { led with activeTimer := 0 }

/-- `setLedPinNumber(pin)` reassigns the LED's pin. -/
def DigitalLed.setLedPinNumber (led : DigitalLed) (pin : Nat) : DigitalLed :=
  { led with ledPinNumber := pin }

/-- Global mutable state of TrafficLights.ino read or written by `loop()`:
the vehicle LED, the pedestrian LED and the walk-request flag. -/
structure State where
  vehicleLed : DigitalLed
  pedestrianLed : DigitalLed
  walkRequested : Bool
deriving Repr, DecidableEq

/-- State after `setup()` and the global constructors: vehicle LED on the
green pin, pedestrian LED on the no-walk pin, timers zero, no walk request
(lines 57-77). -/
def initialState : State :=
  { vehicleLed := { ledPinNumber := GREEN_PIN, activeTimer := 0 }
    pedestrianLed := { ledPinNumber := NO_WALK_PIN, activeTimer := 0 }
    walkRequested := false }

/-- Lines 85-104 of `loop()`: latch a debounced push when no request is
pending, then the walk-request block — early exit from green to yellow once
the green timer reaches a third of the green duration, and clearing of the
request while the light is red. -/
def walkPhase (s : State) (pushDetected : Bool) : State :=
  let walkRequested := if !s.walkRequested && pushDetected then true
                       else s.walkRequested
  if walkRequested then
    if s.vehicleLed.ledPinNumber = GREEN_PIN ∧
        s.vehicleLed.activeTimer ≥ GREEN_DURATION / 3 then
      { s with vehicleLed := (s.vehicleLed.resetLed).setLedPinNumber YELLOW_PIN
               walkRequested := walkRequested }
    else if s.vehicleLed.ledPinNumber = RED_PIN then
      { s with walkRequested := false }
    else
      { s with walkRequested := walkRequested }
  else
    { s with walkRequested := walkRequested }

/-- Result of one `loop()` iteration: the new global state plus the signal
driven on the pedestrian LED during the iteration. -/
structure TickResult where
  state : State
  pedEmit : PedEmit
deriving Repr, DecidableEq

/-- Lines 106-160 of `loop()`: accumulate the vehicle timer
(`showSteadyLed`), then the green / yellow / red chain with its phase
transitions and pedestrian handling. -/
def cyclePhase (s : State) (deltaMillis : Nat) : TickResult :=
  let vehicleLed := s.vehicleLed.showSteadyLed deltaMillis
  if vehicleLed.ledPinNumber = GREEN_PIN then
    let pedestrianLed := s.pedestrianLed.showSteadyLed deltaMillis
    let vehicleLed :=
      if vehicleLed.activeTimer ≥ GREEN_DURATION then
        (vehicleLed.resetLed).setLedPinNumber YELLOW_PIN
      else vehicleLed
    { state := { s with vehicleLed := vehicleLed, pedestrianLed := pedestrianLed }
      pedEmit := .steady s.pedestrianLed.ledPinNumber }
  else if vehicleLed.ledPinNumber = YELLOW_PIN then
    if vehicleLed.activeTimer ≥ YELLOW_DURATION then
      { state := { s with
          vehicleLed := (vehicleLed.resetLed).setLedPinNumber RED_PIN
          pedestrianLed := (s.pedestrianLed.resetLed).setLedPinNumber WALK_PIN }
        pedEmit := .noEmit }
    else
      { state := { s with vehicleLed := vehicleLed }
        pedEmit := .noEmit }
  else
    let pedestrianLed :=
      if s.pedestrianLed.ledPinNumber = WALK_PIN ∧
          vehicleLed.activeTimer ≥ RED_DURATION / 2 then
        (s.pedestrianLed.resetLed).setLedPinNumber NO_WALK_PIN
      else s.pedestrianLed
    let emit :=
      if pedestrianLed.ledPinNumber = WALK_PIN then
        PedEmit.steady pedestrianLed.ledPinNumber
      else
        PedEmit.blinking pedestrianLed.ledPinNumber
    let pedestrianLed :=
      if pedestrianLed.ledPinNumber = WALK_PIN then
        pedestrianLed.showSteadyLed deltaMillis
      else
        pedestrianLed.showBlinkingLed deltaMillis WARNING_BLINK_INTERVAL
    let vehicleLed :=
      if vehicleLed.activeTimer ≥ RED_DURATION then
        (vehicleLed.resetLed).setLedPinNumber GREEN_PIN
      else vehicleLed
    { state := { s with vehicleLed := vehicleLed, pedestrianLed := pedestrianLed }
      pedEmit := emit }

/-- One `loop()` iteration: the walk-request handling (lines 85-104) runs
first, then the timer accumulation and phase chain (lines 106-160). -/
def tick (s : State) (deltaMillis : Nat) (pushDetected : Bool) : TickResult :=
  cyclePhase (walkPhase s pushDetected) deltaMillis

/-- The state reached by one `loop()` iteration. -/
def tickState (s : State) (deltaMillis : Nat) (pushDetected : Bool) : State :=
  (tick s deltaMillis pushDetected).state

/-- The vehicle pin is one of the three vehicle light pins. -/
def validVehiclePin (s : State) : Prop :=
  s.vehicleLed.ledPinNumber = GREEN_PIN ∨
  s.vehicleLed.ledPinNumber = YELLOW_PIN ∨
  s.vehicleLed.ledPinNumber = RED_PIN

/-- The pedestrian pin is one of the two pedestrian light pins. -/
def validPedPin (s : State) : Prop :=
  s.pedestrianLed.ledPinNumber = WALK_PIN ∨
  s.pedestrianLed.ledPinNumber = NO_WALK_PIN

/-- The configured duration of the phase a vehicle pin denotes (the red
duration for the red pin, matching the `else` branch of the chain). -/
def durationOfPin (pin : Nat) : Nat :=
  if pin = GREEN_PIN then GREEN_DURATION
  else if pin = YELLOW_PIN then YELLOW_DURATION
  else RED_DURATION

/-- Cyclic successor on vehicle pins. -/
def nextPin (pin : Nat) : Nat :=
  if pin = GREEN_PIN then YELLOW_PIN
  else if pin = YELLOW_PIN then RED_PIN
  else GREEN_PIN

/-- The condition under which the walk-request block takes its early-exit
branch on this tick: a request pending after the latch update, the vehicle
light green, and the green timer already at a third of the green duration. -/
def earlyExit (s : State) (pushDetected : Bool) : Prop :=
  (s.walkRequested || pushDetected) = true ∧
  s.vehicleLed.ledPinNumber = GREEN_PIN ∧
  s.vehicleLed.activeTimer ≥ GREEN_DURATION / 3

/-- States reachable from `initialState` by any sequence of ticks, with
arbitrary deltas and button inputs. -/
inductive Reachable : State → Prop where
  | init : Reachable initialState
  | step {s : State} (deltaMillis : Nat) (pushDetected : Bool) :
      Reachable s → Reachable (tickState s deltaMillis pushDetected)

/-- Inductive invariant of TrafficLights.ino: the vehicle pin is valid, the
timer of the current phase is below its duration at the end of every tick,
the pedestrian LED shows don't-walk outside red, and during red it shows
walk exactly in the first half of the red duration. -/
def Inv (s : State) : Prop :=
  (s.vehicleLed.ledPinNumber = GREEN_PIN ∧
     s.vehicleLed.activeTimer < GREEN_DURATION ∧
     s.pedestrianLed.ledPinNumber = NO_WALK_PIN) ∨
  (s.vehicleLed.ledPinNumber = YELLOW_PIN ∧
     s.vehicleLed.activeTimer < YELLOW_DURATION ∧
     s.pedestrianLed.ledPinNumber = NO_WALK_PIN) ∨
  (s.vehicleLed.ledPinNumber = RED_PIN ∧
     s.vehicleLed.activeTimer < RED_DURATION ∧
     ((s.vehicleLed.activeTimer < RED_DURATION / 2 ∧
         s.pedestrianLed.ledPinNumber = WALK_PIN) ∨
      (RED_DURATION / 2 ≤ s.vehicleLed.activeTimer ∧
         s.pedestrianLed.ledPinNumber = NO_WALK_PIN)))

/-- Characterization of the walk-request block when no request is pending
and no push is detected: the state is unchanged. -/
theorem walkPhase_skip (vp vt pp pt : Nat) :
    walkPhase ⟨⟨vp, vt⟩, ⟨pp, pt⟩, false⟩ false = ⟨⟨vp, vt⟩, ⟨pp, pt⟩, false⟩ := by
  simp [walkPhase]

/-- Characterization of the walk-request block when a request is active, the
light is green and the green timer has reached a third of the green
duration: early exit to yellow with the timer reset. -/
theorem walkPhase_early (vt pp pt : Nat) (w b : Bool)
    (hw : (w || b) = true) (hvt : GREEN_DURATION / 3 ≤ vt) :
    walkPhase ⟨⟨GREEN_PIN, vt⟩, ⟨pp, pt⟩, w⟩ b =
      ⟨⟨YELLOW_PIN, 0⟩, ⟨pp, pt⟩, true⟩ := by
  cases w <;> cases b <;>
    simp_all [walkPhase, DigitalLed.resetLed, DigitalLed.setLedPinNumber]

/-- Characterization of the walk-request block when a request is active and
the light is red: the request is cleared, nothing else changes. -/
theorem walkPhase_clear (vt pp pt : Nat) (w b : Bool)
    (hw : (w || b) = true) :
    walkPhase ⟨⟨RED_PIN, vt⟩, ⟨pp, pt⟩, w⟩ b =
      ⟨⟨RED_PIN, vt⟩, ⟨pp, pt⟩, false⟩ := by
  cases w <;> cases b <;>
    simp_all [walkPhase, RED_PIN, GREEN_PIN]

/-- Characterization of the walk-request block when a request is active but
neither the early-exit condition nor the red-clearing condition holds: the
request stays pending, nothing else changes. -/
theorem walkPhase_hold (vp vt pp pt : Nat) (w b : Bool)
    (hw : (w || b) = true)
    (hng : ¬(vp = GREEN_PIN ∧ GREEN_DURATION / 3 ≤ vt))
    (hnr : vp ≠ RED_PIN) :
    walkPhase ⟨⟨vp, vt⟩, ⟨pp, pt⟩, w⟩ b = ⟨⟨vp, vt⟩, ⟨pp, pt⟩, true⟩ := by
  cases w <;> cases b <;> simp_all [walkPhase]

/-- Characterization of the chain on a green tick: both timers accumulate,
don't-walk is driven steadily, and the light goes yellow exactly when the
green timer has reached the green duration. -/
theorem cyclePhase_green (vt pp pt : Nat) (w : Bool) (d : Nat) :
    cyclePhase ⟨⟨GREEN_PIN, vt⟩, ⟨pp, pt⟩, w⟩ d =
      ⟨⟨if vt + d ≥ GREEN_DURATION then ⟨YELLOW_PIN, 0⟩ else ⟨GREEN_PIN, vt + d⟩,
        ⟨pp, pt + d⟩, w⟩, .steady pp⟩ := by
  simp only [cyclePhase, DigitalLed.showSteadyLed, DigitalLed.resetLed,
    DigitalLed.setLedPinNumber, GREEN_PIN, YELLOW_PIN, RED_PIN]
  norm_num

/-- Characterization of the chain on a yellow tick: the yellow timer
accumulates, the pedestrian LED is not driven, and once the yellow timer
reaches the yellow duration the light goes red and the pedestrian LED is
reset to walk. -/
theorem cyclePhase_yellow (vt pp pt : Nat) (w : Bool) (d : Nat) :
    cyclePhase ⟨⟨YELLOW_PIN, vt⟩, ⟨pp, pt⟩, w⟩ d =
      if vt + d ≥ YELLOW_DURATION then
        ⟨⟨⟨RED_PIN, 0⟩, ⟨WALK_PIN, 0⟩, w⟩, .noEmit⟩
      else
        ⟨⟨⟨YELLOW_PIN, vt + d⟩, ⟨pp, pt⟩, w⟩, .noEmit⟩ := by
  simp only [cyclePhase, DigitalLed.showSteadyLed, DigitalLed.resetLed,
    DigitalLed.setLedPinNumber, GREEN_PIN, YELLOW_PIN, RED_PIN, WALK_PIN]
  norm_num

/-- Characterization of the chain on a red tick while the pedestrian LED
shows walk and the red timer reaches half the red duration: the pedestrian
LED flips to don't-walk and blinks; the light goes green exactly when the
red timer has reached the red duration. -/
theorem cyclePhase_red_toNoWalk (vp vt pt : Nat) (w : Bool) (d : Nat)
    (h7 : vp ≠ GREEN_PIN) (h8 : vp ≠ YELLOW_PIN)
    (hh : RED_DURATION / 2 ≤ vt + d) :
    cyclePhase ⟨⟨vp, vt⟩, ⟨WALK_PIN, pt⟩, w⟩ d =
      ⟨⟨if vt + d ≥ RED_DURATION then ⟨GREEN_PIN, 0⟩ else ⟨vp, vt + d⟩,
        ⟨NO_WALK_PIN, d⟩, w⟩, .blinking NO_WALK_PIN⟩ := by
  simp only [cyclePhase, DigitalLed.showSteadyLed, DigitalLed.showBlinkingLed,
    DigitalLed.resetLed, DigitalLed.setLedPinNumber, WALK_PIN, NO_WALK_PIN]
  split_ifs <;>
    simp_all [GREEN_PIN, YELLOW_PIN, RED_PIN, WALK_PIN, NO_WALK_PIN,
      RED_DURATION] <;> omega

/-- Characterization of the chain on a red tick in the first half of red:
the pedestrian LED keeps showing walk steadily; the light stays red. -/
theorem cyclePhase_red_walk (vp vt pt : Nat) (w : Bool) (d : Nat)
    (h7 : vp ≠ GREEN_PIN) (h8 : vp ≠ YELLOW_PIN)
    (hh : vt + d < RED_DURATION / 2) :
    cyclePhase ⟨⟨vp, vt⟩, ⟨WALK_PIN, pt⟩, w⟩ d =
      ⟨⟨⟨vp, vt + d⟩, ⟨WALK_PIN, pt + d⟩, w⟩, .steady WALK_PIN⟩ := by
  simp only [cyclePhase, DigitalLed.showSteadyLed, DigitalLed.showBlinkingLed,
    DigitalLed.resetLed, DigitalLed.setLedPinNumber, WALK_PIN, NO_WALK_PIN]
  split_ifs <;>
    simp_all [GREEN_PIN, YELLOW_PIN, RED_PIN, WALK_PIN, NO_WALK_PIN,
      RED_DURATION] <;> omega

/-- Characterization of the chain on a red tick while the pedestrian LED is
not on the walk pin: it blinks on its current pin; the light goes green
exactly when the red timer has reached the red duration. -/
theorem cyclePhase_red_noWalk (vp vt pp pt : Nat) (w : Bool) (d : Nat)
    (h7 : vp ≠ GREEN_PIN) (h8 : vp ≠ YELLOW_PIN) (hpp : pp ≠ WALK_PIN) :
    cyclePhase ⟨⟨vp, vt⟩, ⟨pp, pt⟩, w⟩ d =
      ⟨⟨if vt + d ≥ RED_DURATION then ⟨GREEN_PIN, 0⟩ else ⟨vp, vt + d⟩,
        ⟨pp, pt + d⟩, w⟩, .blinking pp⟩ := by
  simp only [cyclePhase, DigitalLed.showSteadyLed, DigitalLed.showBlinkingLed,
    DigitalLed.resetLed, DigitalLed.setLedPinNumber, WALK_PIN, NO_WALK_PIN]
  split_ifs <;>
    simp_all [GREEN_PIN, YELLOW_PIN, RED_PIN, WALK_PIN, NO_WALK_PIN,
      RED_DURATION] <;> omega

theorem inv_initial : Inv initialState := by
  simp [Inv, initialState, GREEN_DURATION, GREEN_PIN, NO_WALK_PIN]

theorem inv_walkPhase (s : State) (b : Bool) (h : Inv s) :
    Inv (walkPhase s b) := by
  obtain ⟨⟨vp, vt⟩, ⟨pp, pt⟩, w⟩ := s
  simp only [Inv] at h ⊢
  simp only [walkPhase, DigitalLed.resetLed, DigitalLed.setLedPinNumber,
    GREEN_PIN, YELLOW_PIN, RED_PIN, WALK_PIN, NO_WALK_PIN,
    GREEN_DURATION, YELLOW_DURATION, RED_DURATION] at h ⊢
  rcases h with ⟨h1, h2, h3⟩ | ⟨h1, h2, h3⟩ | ⟨h1, h2, h3⟩ <;> subst h1 <;>
    cases w <;> cases b <;> split_ifs <;> simp_all <;> omega

theorem inv_cyclePhase (s : State) (d : Nat) (h : Inv s) :
    Inv (cyclePhase s d).state := by
  obtain ⟨⟨vp, vt⟩, ⟨pp, pt⟩, w⟩ := s
  simp only [Inv] at h
  rcases h with ⟨h1, h2, h3⟩ | ⟨h1, h2, h3⟩ | ⟨h1, h2, h3⟩ <;> subst h1
  · rw [cyclePhase_green]
    simp only [Inv, GREEN_PIN, YELLOW_PIN, RED_PIN, WALK_PIN, NO_WALK_PIN,
      GREEN_DURATION, YELLOW_DURATION, RED_DURATION] at h2 h3 ⊢
    split_ifs <;> dsimp only <;> omega
  · rw [cyclePhase_yellow]
    simp only [Inv, GREEN_PIN, YELLOW_PIN, RED_PIN, WALK_PIN, NO_WALK_PIN,
      GREEN_DURATION, YELLOW_DURATION, RED_DURATION] at h2 h3 ⊢
    split_ifs <;> dsimp only <;> omega
  · rcases h3 with ⟨hvt, hpp⟩ | ⟨hvt, hpp⟩ <;> subst hpp
    · by_cases hh : RED_DURATION / 2 ≤ vt + d
      · rw [cyclePhase_red_toNoWalk _ _ _ _ _ (by decide) (by decide) hh]
        simp only [Inv, GREEN_PIN, YELLOW_PIN, RED_PIN, WALK_PIN, NO_WALK_PIN,
          GREEN_DURATION, YELLOW_DURATION, RED_DURATION] at h2 hh ⊢
        split_ifs <;> simp <;> omega
      · rw [cyclePhase_red_walk _ _ _ _ _ (by decide) (by decide) (by omega)]
        simp only [Inv, GREEN_PIN, YELLOW_PIN, RED_PIN, WALK_PIN, NO_WALK_PIN,
          GREEN_DURATION, YELLOW_DURATION, RED_DURATION] at h2 hvt hh ⊢
        simp
        try omega
    · rw [cyclePhase_red_noWalk _ _ _ _ _ _ (by decide) (by decide) (by decide)]
      simp only [Inv, GREEN_PIN, YELLOW_PIN, RED_PIN, WALK_PIN, NO_WALK_PIN,
        GREEN_DURATION, YELLOW_DURATION, RED_DURATION] at h2 hvt ⊢
      split_ifs <;> simp <;> omega

theorem inv_step (s : State) (deltaMillis : Nat) (pushDetected : Bool)
    (h : Inv s) : Inv (tickState s deltaMillis pushDetected) := by
  rw [tickState, tick]
  exact inv_cyclePhase _ _ (inv_walkPhase _ _ h)

theorem inv_of_reachable {s : State} (h : Reachable s) : Inv s := by
  induction h with
  | init => exact inv_initial
  | step d b _ ih => exact inv_step _ d b ih

/-- The chain never touches the walk-request flag. -/
theorem cyclePhase_keeps_walkRequested (s : State) (d : Nat) :
    (cyclePhase s d).state.walkRequested = s.walkRequested := by
  obtain ⟨⟨vp, vt⟩, ⟨pp, pt⟩, w⟩ := s
  simp only [cyclePhase, DigitalLed.showSteadyLed, DigitalLed.showBlinkingLed,
    DigitalLed.resetLed, DigitalLed.setLedPinNumber]
  split_ifs <;> rfl

/-- When the early-exit condition does not hold, the walk-request block
leaves both LEDs untouched. -/
theorem walkPhase_keeps (s : State) (b : Bool) (h : ¬ earlyExit s b) :
    (walkPhase s b).vehicleLed = s.vehicleLed ∧
    (walkPhase s b).pedestrianLed = s.pedestrianLed := by
  obtain ⟨⟨vp, vt⟩, ⟨pp, pt⟩, w⟩ := s
  simp only [earlyExit] at h
  cases w <;> cases b <;>
    simp_all [walkPhase, DigitalLed.resetLed, DigitalLed.setLedPinNumber] <;>
    split_ifs <;> simp_all <;> omega

/-- The chain moves the vehicle pin to its cyclic successor with timer
reset exactly when the accumulated timer reaches the pin's duration, and
otherwise keeps the pin with the timer accumulated. -/
theorem cyclePhase_pin_cases (u : State) (d : Nat) (hv : validVehiclePin u) :
    ((cyclePhase u d).state.vehicleLed.ledPinNumber = u.vehicleLed.ledPinNumber ∧
       (cyclePhase u d).state.vehicleLed.activeTimer = u.vehicleLed.activeTimer + d ∧
       u.vehicleLed.activeTimer + d < durationOfPin u.vehicleLed.ledPinNumber) ∨
    ((cyclePhase u d).state.vehicleLed.ledPinNumber = nextPin u.vehicleLed.ledPinNumber ∧
       (cyclePhase u d).state.vehicleLed.activeTimer = 0 ∧
       durationOfPin u.vehicleLed.ledPinNumber ≤ u.vehicleLed.activeTimer + d) := by
  obtain ⟨⟨vp, vt⟩, ⟨pp, pt⟩, w⟩ := u
  rcases hv with h | h | h <;> subst h
  · rw [cyclePhase_green]
    by_cases hd : GREEN_DURATION ≤ vt + d
    · right
      simp [hd, nextPin, durationOfPin, GREEN_PIN, YELLOW_PIN] <;> omega
    · left
      constructor
      · simp [hd]
      · simp [hd, durationOfPin, GREEN_PIN] <;> omega
  · rw [cyclePhase_yellow]
    by_cases hd : YELLOW_DURATION ≤ vt + d
    · right
      simp [hd, nextPin, durationOfPin, GREEN_PIN, YELLOW_PIN, RED_PIN] <;>
        omega
    · left
      constructor
      · simp [hd]
      · simp [hd, durationOfPin, GREEN_PIN, YELLOW_PIN] <;> omega
  · by_cases hpp : pp = WALK_PIN
    · subst hpp
      by_cases hh : RED_DURATION / 2 ≤ vt + d
      · rw [cyclePhase_red_toNoWalk _ _ _ _ _ (by decide) (by decide) hh]
        by_cases hd : RED_DURATION ≤ vt + d
        · right
          simp [hd, nextPin, durationOfPin, GREEN_PIN, YELLOW_PIN, RED_PIN] <;>
            omega
        · left
          simp [hd, durationOfPin, GREEN_PIN, YELLOW_PIN, RED_PIN] <;> omega
      · rw [cyclePhase_red_walk _ _ _ _ _ (by decide) (by decide) (by omega)]
        left
        simp [durationOfPin, GREEN_PIN, YELLOW_PIN, RED_PIN,
          RED_DURATION] at hh ⊢ <;> omega
    · rw [cyclePhase_red_noWalk _ _ _ _ _ _ (by decide) (by decide) hpp]
      by_cases hd : RED_DURATION ≤ vt + d
      · right
        simp [hd, nextPin, durationOfPin, GREEN_PIN, YELLOW_PIN, RED_PIN] <;>
          omega
      · left
        simp [hd, durationOfPin, GREEN_PIN, YELLOW_PIN, RED_PIN] <;> omega

/-- On a tick whose walk-request block does not take the early exit, the
vehicle LED either keeps its pin with the timer accumulated below the
phase duration, or moves to the cyclically next pin with the timer reset,
the latter exactly when the accumulated timer reaches the duration. -/
theorem tick_pin_cases (s : State) (d : Nat) (b : Bool)
    (hv : validVehiclePin s) (hne : ¬ earlyExit s b) :
    ((tickState s d b).vehicleLed.ledPinNumber = s.vehicleLed.ledPinNumber ∧
       (tickState s d b).vehicleLed.activeTimer = s.vehicleLed.activeTimer + d ∧
       s.vehicleLed.activeTimer + d < durationOfPin s.vehicleLed.ledPinNumber) ∨
    ((tickState s d b).vehicleLed.ledPinNumber = nextPin s.vehicleLed.ledPinNumber ∧
       (tickState s d b).vehicleLed.activeTimer = 0 ∧
       durationOfPin s.vehicleLed.ledPinNumber ≤ s.vehicleLed.activeTimer + d) := by
  have hkeep := walkPhase_keeps s b hne
  have hv2 : validVehiclePin (walkPhase s b) := by
    simp only [validVehiclePin, hkeep.1] at hv ⊢
    exact hv
  have hc := cyclePhase_pin_cases (walkPhase s b) d hv2
  rw [hkeep.1] at hc
  rw [tickState, tick]
  exact hc

end TL

namespace TLB

-- LED pin numbers for vehicle lights (part_000 lines 33-35).
def RED_PIN : Nat := 12
def YELLOW_PIN : Nat := 8
def GREEN_PIN : Nat := 7

-- LED pin numbers for pedestrian lights (lines 38-39).
def WALK_PIN : Nat := 2
def NO_WALK_PIN : Nat := 4

-- Active duration for each vehicle light (lines 42-44).
def RED_DURATION : Nat := 10000
def YELLOW_DURATION : Nat := 2000
def GREEN_DURATION : Nat := 15000

-- Blink interval for blinking warning (line 47).
def WARNING_BLINK_INTERVAL : Nat := 500

-- Debounce delay for walk request button (line 56).
def WALK_BUTTON_DEBOUNCE : Nat := 50

/-- Modelled from the spec: the `TimedDigitalLed` class of the external
ArduinoLibraries repository: a pin, a fixed active duration, and an
elapsed-active timer. -/
structure TimedDigitalLed where
  ledPinNumber : Nat
  activeDuration : Nat
  activeTimer : Nat
deriving Repr, DecidableEq

/-- Modelled from the spec: `runSteadyLed(deltaMillis)` drives the LED and
accumulates the active timer by the tick's delta. -/
def TimedDigitalLed.runSteadyLed (led : TimedDigitalLed) (deltaMillis : Nat) :
    TimedDigitalLed :=
  { led with activeTimer := led.activeTimer + deltaMillis }

/-- Modelled from the spec: a `TimedDigitalLed` stays in its active state
until its elapsed-in-phase timer reaches its duration. -/
def TimedDigitalLed.getIsActiveState (led : TimedDigitalLed) : Prop :=
  led.activeTimer < led.activeDuration

instance (led : TimedDigitalLed) : Decidable led.getIsActiveState :=
  Nat.decLt _ _

/-- Modelled from the spec: `resetLed()` turns the LED off and zeroes its
timer. -/
def TimedDigitalLed.resetLed (led : TimedDigitalLed) : TimedDigitalLed :=
  { led with activeTimer := 0 }

/-- Modelled from the spec: the plain `DigitalLed` used for the two
pedestrian lights, as in the `TL` variant. -/
structure DigitalLed where
  ledPinNumber : Nat
  activeTimer : Nat
deriving Repr, DecidableEq

/-- Modelled from the spec: `runSteadyLed(deltaMillis)` accumulates the
active timer. -/
def DigitalLed.runSteadyLed (led : DigitalLed) (deltaMillis : Nat) : DigitalLed :=
  { led with activeTimer := led.activeTimer + deltaMillis }

/-- Modelled from the spec: `runBlinkingLed(deltaMillis, interval)`
accumulates the active timer; the blink toggle is internal to the driver. -/
def DigitalLed.runBlinkingLed (led : DigitalLed) (deltaMillis : Nat)
    (_interval : Nat) : DigitalLed :=
  { led with activeTimer := led.activeTimer + deltaMillis }

/-- Modelled from the spec: `resetLed()` zeroes the timer. -/
def DigitalLed.resetLed (led : DigitalLed) : DigitalLed :=
  { led with activeTimer := 0 }

/-- Which of the three vehicle LEDs `pVehicleLed` points to. -/
inductive VSel where
  | red
  | yellow
  | green
deriving Repr, DecidableEq

/-- Which of the two pedestrian LEDs `pPedestrianLed` points to. -/
inductive PSel where
  | walk
  | noWalk
deriving Repr, DecidableEq

/-- Cyclic successor of the vehicle pointer: green, yellow, red, green. -/
def VSel.next : VSel → VSel
  | .green => .yellow
  | .yellow => .red
  | .red => .green

/-- Global mutable state of TrafficLightsButton.ino read or written by
`loop()`: the three vehicle LEDs, the two pedestrian LEDs, the two current
pointers and the walk-request flag. -/
structure State where
  redLed : TimedDigitalLed
  yellowLed : TimedDigitalLed
  greenLed : TimedDigitalLed
  walkLed : DigitalLed
  noWalkLed : DigitalLed
  pVehicleLed : VSel
  pPedestrianLed : PSel
  walkRequested : Bool
deriving Repr, DecidableEq

/-- The `TimedDigitalLed` the vehicle pointer currently denotes. -/
def State.curV (s : State) : TimedDigitalLed :=
  match s.pVehicleLed with
  | .red => s.redLed
  | .yellow => s.yellowLed
  | .green => s.greenLed

/-- Write back through the vehicle pointer. -/
def State.setCurV (s : State) (led : TimedDigitalLed) : State :=
  match s.pVehicleLed with
  | .red => { s with redLed := led }
  | .yellow => { s with yellowLed := led }
  | .green => { s with greenLed := led }

/-- The `DigitalLed` the pedestrian pointer currently denotes. -/
def State.curP (s : State) : DigitalLed :=
  match s.pPedestrianLed with
  | .walk => s.walkLed
  | .noWalk => s.noWalkLed

/-- Write back through the pedestrian pointer. -/
def State.setCurP (s : State) (led : DigitalLed) : State :=
  match s.pPedestrianLed with
  | .walk => { s with walkLed := led }
  | .noWalk => { s with noWalkLed := led }

/-- State after the global constructors and `setup()` (lines 59-88): each
timed LED carries its pin and duration with timer zero, the pointers start
at the green vehicle LED and the no-walk pedestrian LED, and no walk
request is pending. -/
def initialState : State :=
  { redLed := ⟨RED_PIN, RED_DURATION, 0⟩
    yellowLed := ⟨YELLOW_PIN, YELLOW_DURATION, 0⟩
    greenLed := ⟨GREEN_PIN, GREEN_DURATION, 0⟩
    walkLed := ⟨WALK_PIN, 0⟩
    noWalkLed := ⟨NO_WALK_PIN, 0⟩
    pVehicleLed := .green
    pPedestrianLed := .noWalk
    walkRequested := false }

/-- Lines 96-114 of `loop()`: latch a debounced push when no request is
pending, then the walk-request block — early exit from green to yellow once
the current (green) LED's timer reaches a third of its duration, and
clearing of the request while the current LED is the red one. -/
def walkPhase (s : State) (pushDetected : Bool) : State :=
  let walkRequested := if !s.walkRequested && pushDetected then true
                       else s.walkRequested
  if walkRequested then
    if s.pVehicleLed = .green ∧
        s.curV.activeTimer ≥ s.curV.activeDuration / 3 then
      let s1 := s.setCurV s.curV.resetLed
      { s1 with pVehicleLed := .yellow, walkRequested := walkRequested }
    else if s.pVehicleLed = .red then
      { s with walkRequested := false }
    else
      { s with walkRequested := walkRequested }
  else
    { s with walkRequested := walkRequested }

/-- Result of one `loop()` iteration of TrafficLightsButton.ino. -/
structure TickResult where
  state : State
  pedEmit : PedEmit
deriving Repr, DecidableEq

/-- Lines 116-172 of `loop()`: the green / yellow / red chain; each branch
runs the current vehicle LED (accumulating its timer) and transitions when
that LED is no longer active; the red branch also derives the pedestrian
light from the red timer. -/
def cyclePhase (s : State) (deltaMillis : Nat) : TickResult :=
  if s.pVehicleLed = .green then
    let s1 := s.setCurV (s.curV.runSteadyLed deltaMillis)
    let s2 := s1.setCurP (s1.curP.runSteadyLed deltaMillis)
    if ¬ s2.curV.getIsActiveState then
      let s3 := s2.setCurV s2.curV.resetLed
      { state := { s3 with pVehicleLed := .yellow }
        pedEmit := .steady s2.curP.ledPinNumber }
    else
      { state := s2, pedEmit := .steady s2.curP.ledPinNumber }
  else if s.pVehicleLed = .yellow then
    let s1 := s.setCurV (s.curV.runSteadyLed deltaMillis)
    if ¬ s1.curV.getIsActiveState then
      let s2 := s1.setCurV s1.curV.resetLed
      let s3 := s2.setCurP s2.curP.resetLed
      { state := { s3 with pVehicleLed := .red, pPedestrianLed := .walk }
        pedEmit := .noEmit }
    else
      { state := s1, pedEmit := .noEmit }
  else
    let s1 := s.setCurV (s.curV.runSteadyLed deltaMillis)
    let s2 :=
      if s1.pPedestrianLed = .walk ∧
          s1.curV.activeTimer ≥ s1.curV.activeDuration / 2 then
        let t := s1.setCurP s1.curP.resetLed
        { t with pPedestrianLed := .noWalk }
      else s1
    let emit :=
      if s2.pPedestrianLed = .walk then PedEmit.steady s2.curP.ledPinNumber
      else PedEmit.blinking s2.curP.ledPinNumber
    let s3 :=
      if s2.pPedestrianLed = .walk then
        s2.setCurP (s2.curP.runSteadyLed deltaMillis)
      else
        s2.setCurP (s2.curP.runBlinkingLed deltaMillis WARNING_BLINK_INTERVAL)
    let s4 :=
      if ¬ s3.curV.getIsActiveState then
        let t := s3.setCurV s3.curV.resetLed
        { t with pVehicleLed := .green }
      else s3
    { state := s4, pedEmit := emit }

/-- One `loop()` iteration of TrafficLightsButton.ino: walk-request
handling (lines 96-114) first, then the chain (lines 116-172). -/
def tick (s : State) (deltaMillis : Nat) (pushDetected : Bool) : TickResult :=
  cyclePhase (walkPhase s pushDetected) deltaMillis

/-- The state reached by one `loop()` iteration. -/
def tickState (s : State) (deltaMillis : Nat) (pushDetected : Bool) : State :=
  (tick s deltaMillis pushDetected).state

/-- The early-exit condition of the walk-request block of this variant. -/
def earlyExit (s : State) (pushDetected : Bool) : Prop :=
  (s.walkRequested || pushDetected) = true ∧
  s.pVehicleLed = .green ∧
  s.curV.activeTimer ≥ s.curV.activeDuration / 3

/-- States reachable from `initialState` by any sequence of ticks. -/
inductive Reachable : State → Prop where
  | init : Reachable initialState
  | step {s : State} (deltaMillis : Nat) (pushDetected : Bool) :
      Reachable s → Reachable (tickState s deltaMillis pushDetected)

/-- Walk-request block with no pending request and no push: no change. -/
theorem walkPhase_skipB (rl yl gl : TimedDigitalLed) (wl nl : DigitalLed)
    (v : VSel) (p : PSel) :
    walkPhase ⟨rl, yl, gl, wl, nl, v, p, false⟩ false =
      ⟨rl, yl, gl, wl, nl, v, p, false⟩ := by
  simp [walkPhase]

/-- Walk-request block with a request active, the pointer on the green LED
and its timer at a third of its duration: early exit to the yellow LED with
the green timer reset. -/
theorem walkPhase_earlyB (rl yl : TimedDigitalLed) (gp gd gt : Nat)
    (wl nl : DigitalLed) (p : PSel) (w b : Bool)
    (hw : (w || b) = true) (hvt : gd / 3 ≤ gt) :
    walkPhase ⟨rl, yl, ⟨gp, gd, gt⟩, wl, nl, .green, p, w⟩ b =
      ⟨rl, yl, ⟨gp, gd, 0⟩, wl, nl, .yellow, p, true⟩ := by
  cases w <;> cases b <;>
    simp_all [walkPhase, State.curV, State.setCurV, TimedDigitalLed.resetLed]

/-- Walk-request block with a request active and the pointer on the red
LED: the request is cleared, nothing else changes. -/
theorem walkPhase_clearB (rl yl gl : TimedDigitalLed) (wl nl : DigitalLed)
    (p : PSel) (w b : Bool) (hw : (w || b) = true) :
    walkPhase ⟨rl, yl, gl, wl, nl, .red, p, w⟩ b =
      ⟨rl, yl, gl, wl, nl, .red, p, false⟩ := by
  cases w <;> cases b <;>
    simp_all [walkPhase, State.curV, State.setCurV]

/-- Walk-request block with a request active but neither the early-exit nor
the red-clearing condition: the request stays pending. -/
theorem walkPhase_holdB (rl yl gl : TimedDigitalLed) (wl nl : DigitalLed)
    (v : VSel) (p : PSel) (w b : Bool) (hw : (w || b) = true)
    (hng : ¬(v = VSel.green ∧ gl.activeDuration / 3 ≤ gl.activeTimer))
    (hnr : v ≠ VSel.red) :
    walkPhase ⟨rl, yl, gl, wl, nl, v, p, w⟩ b =
      ⟨rl, yl, gl, wl, nl, v, p, true⟩ := by
  cases v <;> cases w <;> cases b <;>
    simp_all [walkPhase, State.curV, State.setCurV]

/-- The chain on a green tick without transition: the green LED and the
current pedestrian LED accumulate, don't-walk is driven steadily on the
current pedestrian pin. -/
theorem cyclePhase_green_stay (rl yl : TimedDigitalLed) (gp gd gt : Nat)
    (wl nl : DigitalLed) (p : PSel) (w : Bool) (d : Nat)
    (hlt : gt + d < gd) :
    cyclePhase ⟨rl, yl, ⟨gp, gd, gt⟩, wl, nl, .green, p, w⟩ d =
      { state :=
          { redLed := rl, yellowLed := yl, greenLed := ⟨gp, gd, gt + d⟩
            walkLed := if p = PSel.walk then wl.runSteadyLed d else wl
            noWalkLed := if p = PSel.walk then nl else nl.runSteadyLed d
            pVehicleLed := .green, pPedestrianLed := p, walkRequested := w }
        pedEmit := .steady (if p = PSel.walk then wl.ledPinNumber
                            else nl.ledPinNumber) } := by
  cases p <;>
    simp [cyclePhase, State.curV, State.setCurV, State.curP, State.setCurP,
      TimedDigitalLed.runSteadyLed, TimedDigitalLed.getIsActiveState,
      TimedDigitalLed.resetLed, DigitalLed.runSteadyLed, hlt]

/-- The chain on a green tick with transition: once the green LED stops
being active it is reset and the pointer moves to yellow. -/
theorem cyclePhase_green_go (rl yl : TimedDigitalLed) (gp gd gt : Nat)
    (wl nl : DigitalLed) (p : PSel) (w : Bool) (d : Nat)
    (hge : gd ≤ gt + d) :
    cyclePhase ⟨rl, yl, ⟨gp, gd, gt⟩, wl, nl, .green, p, w⟩ d =
      { state :=
          { redLed := rl, yellowLed := yl, greenLed := ⟨gp, gd, 0⟩
            walkLed := if p = PSel.walk then wl.runSteadyLed d else wl
            noWalkLed := if p = PSel.walk then nl else nl.runSteadyLed d
            pVehicleLed := .yellow, pPedestrianLed := p, walkRequested := w }
        pedEmit := .steady (if p = PSel.walk then wl.ledPinNumber
                            else nl.ledPinNumber) } := by
  have hlt : ¬ (gt + d < gd) := by omega
  cases p <;>
    simp [cyclePhase, State.curV, State.setCurV, State.curP, State.setCurP,
      TimedDigitalLed.runSteadyLed, TimedDigitalLed.getIsActiveState,
      TimedDigitalLed.resetLed, DigitalLed.runSteadyLed, hlt]

/-- The chain on a yellow tick without transition: the yellow LED
accumulates, the pedestrian LED is not driven. -/
theorem cyclePhase_yellow_stay (rl : TimedDigitalLed) (yp yd yt : Nat)
    (gl : TimedDigitalLed) (wl nl : DigitalLed) (p : PSel) (w : Bool) (d : Nat)
    (hlt : yt + d < yd) :
    cyclePhase ⟨rl, ⟨yp, yd, yt⟩, gl, wl, nl, .yellow, p, w⟩ d =
      { state := ⟨rl, ⟨yp, yd, yt + d⟩, gl, wl, nl, .yellow, p, w⟩
        pedEmit := .noEmit } := by
  cases p <;>
    simp [cyclePhase, State.curV, State.setCurV, State.curP, State.setCurP,
      TimedDigitalLed.runSteadyLed, TimedDigitalLed.getIsActiveState,
      TimedDigitalLed.resetLed, hlt]

/-- The chain on a yellow tick with transition: the yellow LED is reset,
the current pedestrian LED is reset, the vehicle pointer moves to red and
the pedestrian pointer moves to walk. -/
theorem cyclePhase_yellow_go (rl : TimedDigitalLed) (yp yd yt : Nat)
    (gl : TimedDigitalLed) (wl nl : DigitalLed) (p : PSel) (w : Bool) (d : Nat)
    (hge : yd ≤ yt + d) :
    cyclePhase ⟨rl, ⟨yp, yd, yt⟩, gl, wl, nl, .yellow, p, w⟩ d =
      { state :=
          { redLed := rl, yellowLed := ⟨yp, yd, 0⟩, greenLed := gl
            walkLed := if p = PSel.walk then wl.resetLed else wl
            noWalkLed := if p = PSel.walk then nl else nl.resetLed
            pVehicleLed := .red, pPedestrianLed := .walk, walkRequested := w }
        pedEmit := .noEmit } := by
  have hlt : ¬ (yt + d < yd) := by omega
  cases p <;>
    simp [cyclePhase, State.curV, State.setCurV, State.curP, State.setCurP,
      TimedDigitalLed.runSteadyLed, TimedDigitalLed.getIsActiveState,
      TimedDigitalLed.resetLed, DigitalLed.resetLed, hlt]

/-- The chain on a red tick while the pedestrian pointer is on walk and the
red timer reaches half the red duration but not the full duration: the walk
LED is reset, the pedestrian pointer flips to no-walk and the no-walk LED
blinks; the vehicle pointer stays on red. -/
theorem cyclePhase_red_toNoWalk_stay (rp rd rt : Nat) (yl gl : TimedDigitalLed)
    (wl nl : DigitalLed) (w : Bool) (d : Nat)
    (hh : rd / 2 ≤ rt + d) (hlt : rt + d < rd) :
    cyclePhase ⟨⟨rp, rd, rt⟩, yl, gl, wl, nl, .red, .walk, w⟩ d =
      { state := ⟨⟨rp, rd, rt + d⟩, yl, gl, wl.resetLed,
          nl.runBlinkingLed d WARNING_BLINK_INTERVAL, .red, .noWalk, w⟩
        pedEmit := .blinking nl.ledPinNumber } := by
  simp [cyclePhase, State.curV, State.setCurV, State.curP, State.setCurP,
    TimedDigitalLed.runSteadyLed, TimedDigitalLed.getIsActiveState,
    TimedDigitalLed.resetLed, DigitalLed.resetLed, DigitalLed.runBlinkingLed,
    hh, hlt]

/-- The chain on a red tick while the pedestrian pointer is on walk and the
red timer reaches the full red duration: the pedestrian pointer flips to
no-walk (half the duration was also reached), the no-walk LED blinks, the
red LED is reset and the vehicle pointer moves to green. -/
theorem cyclePhase_red_toNoWalk_go (rp rd rt : Nat) (yl gl : TimedDigitalLed)
    (wl nl : DigitalLed) (w : Bool) (d : Nat)
    (hge : rd ≤ rt + d) :
    cyclePhase ⟨⟨rp, rd, rt⟩, yl, gl, wl, nl, .red, .walk, w⟩ d =
      { state := ⟨⟨rp, rd, 0⟩, yl, gl, wl.resetLed,
          nl.runBlinkingLed d WARNING_BLINK_INTERVAL, .green, .noWalk, w⟩
        pedEmit := .blinking nl.ledPinNumber } := by
  have hh : rd / 2 ≤ rt + d := by omega
  have hlt : ¬ (rt + d < rd) := by omega
  simp [cyclePhase, State.curV, State.setCurV, State.curP, State.setCurP,
    TimedDigitalLed.runSteadyLed, TimedDigitalLed.getIsActiveState,
    TimedDigitalLed.resetLed, DigitalLed.resetLed, DigitalLed.runBlinkingLed,
    hh, hlt]

/-- The chain on a red tick in the first half of red: the walk LED keeps
being driven steadily and the vehicle pointer stays on red. -/
theorem cyclePhase_red_walkB (rp rd rt : Nat) (yl gl : TimedDigitalLed)
    (wl nl : DigitalLed) (w : Bool) (d : Nat)
    (hh : rt + d < rd / 2) :
    cyclePhase ⟨⟨rp, rd, rt⟩, yl, gl, wl, nl, .red, .walk, w⟩ d =
      { state := ⟨⟨rp, rd, rt + d⟩, yl, gl, wl.runSteadyLed d, nl, .red, .walk, w⟩
        pedEmit := .steady wl.ledPinNumber } := by
  have hh2 : ¬ (rd / 2 ≤ rt + d) := by omega
  have hlt : rt + d < rd := by omega
  simp [cyclePhase, State.curV, State.setCurV, State.curP, State.setCurP,
    TimedDigitalLed.runSteadyLed, TimedDigitalLed.getIsActiveState,
    TimedDigitalLed.resetLed, DigitalLed.runSteadyLed, hh2, hlt]

/-- The chain on a red tick while the pedestrian pointer is on no-walk and
the red timer stays below the red duration: the no-walk LED blinks, the
vehicle pointer stays on red. -/
theorem cyclePhase_red_noWalk_stay (rp rd rt : Nat) (yl gl : TimedDigitalLed)
    (wl nl : DigitalLed) (w : Bool) (d : Nat)
    (hlt : rt + d < rd) :
    cyclePhase ⟨⟨rp, rd, rt⟩, yl, gl, wl, nl, .red, .noWalk, w⟩ d =
      { state := ⟨⟨rp, rd, rt + d⟩, yl, gl, wl,
          nl.runBlinkingLed d WARNING_BLINK_INTERVAL, .red, .noWalk, w⟩
        pedEmit := .blinking nl.ledPinNumber } := by
  simp [cyclePhase, State.curV, State.setCurV, State.curP, State.setCurP,
    TimedDigitalLed.runSteadyLed, TimedDigitalLed.getIsActiveState,
    TimedDigitalLed.resetLed, DigitalLed.runBlinkingLed, hlt]

/-- The chain on a red tick while the pedestrian pointer is on no-walk and
the red timer reaches the red duration: the no-walk LED blinks, the red LED
is reset and the vehicle pointer moves to green. -/
theorem cyclePhase_red_noWalk_go (rp rd rt : Nat) (yl gl : TimedDigitalLed)
    (wl nl : DigitalLed) (w : Bool) (d : Nat)
    (hge : rd ≤ rt + d) :
    cyclePhase ⟨⟨rp, rd, rt⟩, yl, gl, wl, nl, .red, .noWalk, w⟩ d =
      { state := ⟨⟨rp, rd, 0⟩, yl, gl, wl,
          nl.runBlinkingLed d WARNING_BLINK_INTERVAL, .green, .noWalk, w⟩
        pedEmit := .blinking nl.ledPinNumber } := by
  have hlt : ¬ (rt + d < rd) := by omega
  simp [cyclePhase, State.curV, State.setCurV, State.curP, State.setCurP,
    TimedDigitalLed.runSteadyLed, TimedDigitalLed.getIsActiveState,
    TimedDigitalLed.resetLed, DigitalLed.runBlinkingLed, hlt]

/-- Inductive invariant of TrafficLightsButton.ino: pins and durations of
the five LEDs are the configured constants, the timers of the two inactive
vehicle LEDs are zero, the timer of the current vehicle LED is below its
duration at the end of every tick, and the pedestrian pointer is on walk
exactly during the first half of red. -/
def Inv (s : State) : Prop :=
  s.redLed.ledPinNumber = RED_PIN ∧ s.redLed.activeDuration = RED_DURATION ∧
  s.yellowLed.ledPinNumber = YELLOW_PIN ∧
  s.yellowLed.activeDuration = YELLOW_DURATION ∧
  s.greenLed.ledPinNumber = GREEN_PIN ∧
  s.greenLed.activeDuration = GREEN_DURATION ∧
  s.walkLed.ledPinNumber = WALK_PIN ∧ s.noWalkLed.ledPinNumber = NO_WALK_PIN ∧
  ((s.pVehicleLed = VSel.green ∧ s.greenLed.activeTimer < GREEN_DURATION ∧
      s.redLed.activeTimer = 0 ∧ s.yellowLed.activeTimer = 0 ∧
      s.pPedestrianLed = PSel.noWalk) ∨
   (s.pVehicleLed = VSel.yellow ∧ s.yellowLed.activeTimer < YELLOW_DURATION ∧
      s.redLed.activeTimer = 0 ∧ s.greenLed.activeTimer = 0 ∧
      s.pPedestrianLed = PSel.noWalk) ∨
   (s.pVehicleLed = VSel.red ∧ s.redLed.activeTimer < RED_DURATION ∧
      s.yellowLed.activeTimer = 0 ∧ s.greenLed.activeTimer = 0 ∧
      ((s.redLed.activeTimer < RED_DURATION / 2 ∧
          s.pPedestrianLed = PSel.walk) ∨
       (RED_DURATION / 2 ≤ s.redLed.activeTimer ∧
          s.pPedestrianLed = PSel.noWalk))))

theorem inv_initialB : Inv initialState := by
  simp [Inv, initialState, GREEN_DURATION, GREEN_PIN, NO_WALK_PIN]

theorem inv_walkPhaseB (s : State) (b : Bool) (h : Inv s) :
    Inv (walkPhase s b) := by
  obtain ⟨⟨rp, rdu, rt⟩, ⟨yp, ydu, yt⟩, ⟨gp, gdu, gt⟩, ⟨wp, wt⟩, ⟨np, nt⟩,
    v, p, w⟩ := s
  simp only [Inv] at h ⊢
  obtain ⟨e1, e2, e3, e4, e5, e6, e7, e8, hv⟩ := h
  subst e1; subst e2; subst e3; subst e4; subst e5; subst e6
  subst e7; subst e8
  by_cases hwb : (w || b) = true
  · rcases hv with ⟨hv, h2, h3, h4, h5⟩ | ⟨hv, h2, h3, h4, h5⟩ |
      ⟨hv, h2, h3, h4, h5⟩ <;> subst hv
    · subst h5
      by_cases he : GREEN_DURATION / 3 ≤ gt
      · rw [walkPhase_earlyB _ _ _ _ _ _ _ _ _ _ hwb he]
        have hyt : yt < YELLOW_DURATION := by rw [h4]; decide
        exact ⟨rfl, rfl, rfl, rfl, rfl, rfl, rfl, rfl,
          Or.inr (Or.inl ⟨rfl, hyt, h3, rfl, rfl⟩)⟩
      · rw [walkPhase_holdB _ _ _ _ _ _ _ _ _ hwb (fun hc => he hc.2)
          (by decide)]
        exact ⟨rfl, rfl, rfl, rfl, rfl, rfl, rfl, rfl,
          Or.inl ⟨rfl, h2, h3, h4, rfl⟩⟩
    · subst h5
      rw [walkPhase_holdB _ _ _ _ _ _ _ _ _ hwb (by simp) (by decide)]
      exact ⟨rfl, rfl, rfl, rfl, rfl, rfl, rfl, rfl,
        Or.inr (Or.inl ⟨rfl, h2, h3, h4, rfl⟩)⟩
    · rw [walkPhase_clearB _ _ _ _ _ _ _ _ hwb]
      exact ⟨rfl, rfl, rfl, rfl, rfl, rfl, rfl, rfl,
        Or.inr (Or.inr ⟨rfl, h2, h3, h4, h5⟩)⟩
  · have hw : w = false := by cases w <;> simp_all
    have hb : b = false := by cases b <;> simp_all
    subst hw; subst hb
    rw [walkPhase_skipB]
    exact ⟨rfl, rfl, rfl, rfl, rfl, rfl, rfl, rfl, hv⟩

theorem inv_cyclePhaseB (s : State) (d : Nat) (h : Inv s) :
    Inv (cyclePhase s d).state := by
  obtain ⟨⟨rp, rdu, rt⟩, ⟨yp, ydu, yt⟩, ⟨gp, gdu, gt⟩, ⟨wp, wt⟩, ⟨np, nt⟩,
    v, p, w⟩ := s
  simp only [Inv] at h ⊢
  obtain ⟨e1, e2, e3, e4, e5, e6, e7, e8, hv⟩ := h
  subst e1; subst e2; subst e3; subst e4; subst e5; subst e6
  subst e7; subst e8
  rcases hv with ⟨hv, h2, h3, h4, h5⟩ | ⟨hv, h2, h3, h4, h5⟩ |
    ⟨hv, h2, h3, h4, h5⟩ <;> subst hv
  · subst h5
    by_cases hlt : gt + d < GREEN_DURATION
    · rw [cyclePhase_green_stay _ _ _ _ _ _ _ _ _ _ hlt]
      simp_all [GREEN_DURATION, YELLOW_DURATION, RED_DURATION,
        DigitalLed.runSteadyLed]
    · rw [cyclePhase_green_go _ _ _ _ _ _ _ _ _ _ (by omega)]
      simp_all [GREEN_DURATION, YELLOW_DURATION, RED_DURATION,
        DigitalLed.runSteadyLed]
  · subst h5
    by_cases hlt : yt + d < YELLOW_DURATION
    · rw [cyclePhase_yellow_stay _ _ _ _ _ _ _ _ _ _ hlt]
      simp_all [GREEN_DURATION, YELLOW_DURATION, RED_DURATION]
    · rw [cyclePhase_yellow_go _ _ _ _ _ _ _ _ _ _ (by omega)]
      simp_all [GREEN_DURATION, YELLOW_DURATION, RED_DURATION,
        DigitalLed.resetLed]
  · rcases h5 with ⟨hrt, hp⟩ | ⟨hrt, hp⟩ <;> subst hp
    · by_cases hgo : RED_DURATION ≤ rt + d
      · rw [cyclePhase_red_toNoWalk_go _ _ _ _ _ _ _ _ _ hgo]
        simp_all [GREEN_DURATION, YELLOW_DURATION, RED_DURATION,
          DigitalLed.resetLed, DigitalLed.runBlinkingLed]
      · by_cases hh : RED_DURATION / 2 ≤ rt + d
        · rw [cyclePhase_red_toNoWalk_stay _ _ _ _ _ _ _ _ _ hh (by omega)]
          simp_all [GREEN_DURATION, YELLOW_DURATION, RED_DURATION,
            DigitalLed.resetLed, DigitalLed.runBlinkingLed]
        · rw [cyclePhase_red_walkB _ _ _ _ _ _ _ _ _ (by omega)]
          simp_all [GREEN_DURATION, YELLOW_DURATION, RED_DURATION,
            DigitalLed.runSteadyLed]
    · by_cases hgo : RED_DURATION ≤ rt + d
      · rw [cyclePhase_red_noWalk_go _ _ _ _ _ _ _ _ _ hgo]
        simp_all [GREEN_DURATION, YELLOW_DURATION, RED_DURATION,
          DigitalLed.runBlinkingLed]
      · rw [cyclePhase_red_noWalk_stay _ _ _ _ _ _ _ _ _ (by omega)]
        simp_all [GREEN_DURATION, YELLOW_DURATION, RED_DURATION,
          DigitalLed.runBlinkingLed]
        omega

theorem inv_stepB (s : State) (deltaMillis : Nat) (pushDetected : Bool)
    (h : Inv s) : Inv (tickState s deltaMillis pushDetected) := by
  rw [tickState, tick]
  exact inv_cyclePhaseB _ _ (inv_walkPhaseB _ _ h)

theorem inv_of_reachableB {s : State} (h : Reachable s) : Inv s := by
  induction h with
  | init => exact inv_initialB
  | step d b _ ih => exact inv_stepB _ d b ih

/-- The vehicle `TimedDigitalLed` a given selector denotes. -/
def State.vled (s : State) : VSel → TimedDigitalLed
  | .red => s.redLed
  | .yellow => s.yellowLed
  | .green => s.greenLed

theorem curV_eq_vled (s : State) : s.curV = s.vled s.pVehicleLed := by
  obtain ⟨rl, yl, gl, wl, nl, v, p, w⟩ := s
  cases v <;> rfl

/-- The chain never touches the walk-request flag. -/
theorem cyclePhase_keeps_walkRequestedB (s : State) (d : Nat) :
    (cyclePhase s d).state.walkRequested = s.walkRequested := by
  obtain ⟨rl, yl, gl, wl, nl, v, p, w⟩ := s
  cases v <;> cases p <;>
    simp [cyclePhase, State.curV, State.setCurV, State.curP, State.setCurP,
      TimedDigitalLed.runSteadyLed, TimedDigitalLed.getIsActiveState,
      TimedDigitalLed.resetLed, DigitalLed.runSteadyLed,
      DigitalLed.runBlinkingLed, DigitalLed.resetLed] <;>
    split_ifs <;> rfl

/-- When the early-exit condition does not hold, the walk-request block
changes at most the walk-request flag. -/
theorem walkPhase_keepsB (s : State) (b : Bool) (h : ¬ earlyExit s b) :
    walkPhase s b = { s with walkRequested := (walkPhase s b).walkRequested } := by
  obtain ⟨rl, yl, gl, wl, nl, v, p, w⟩ := s
  simp only [earlyExit, State.curV] at h
  cases v <;> cases w <;> cases b <;>
    simp_all [walkPhase, State.curV, State.setCurV] <;>
    split_ifs <;> simp_all <;> omega

/-- The chain moves the vehicle pointer to its cyclic successor with the
departed LED's timer reset exactly when the accumulated timer reaches the
current LED's duration, and otherwise keeps the pointer with the timer
accumulated. -/
theorem cyclePhase_sel_cases (u : State) (d : Nat) :
    ((cyclePhase u d).state.pVehicleLed = u.pVehicleLed ∧
       ((cyclePhase u d).state.vled u.pVehicleLed).activeTimer =
         u.curV.activeTimer + d ∧
       u.curV.activeTimer + d < u.curV.activeDuration) ∨
    ((cyclePhase u d).state.pVehicleLed = u.pVehicleLed.next ∧
       ((cyclePhase u d).state.vled u.pVehicleLed).activeTimer = 0 ∧
       u.curV.activeDuration ≤ u.curV.activeTimer + d) := by
  obtain ⟨⟨rp, rdu, rt⟩, ⟨yp, ydu, yt⟩, ⟨gp, gdu, gt⟩, wl, nl, v, p, w⟩ := u
  cases v
  · -- red
    cases p
    · by_cases hh : rdu / 2 ≤ rt + d
      · by_cases hd : rdu ≤ rt + d
        · right
          rw [cyclePhase_red_toNoWalk_go _ _ _ _ _ _ _ _ _ hd]
          simp [State.vled, State.curV, VSel.next] <;> omega
        · left
          rw [cyclePhase_red_toNoWalk_stay _ _ _ _ _ _ _ _ _ hh (by omega)]
          simp [State.vled, State.curV]
          omega
      · left
        rw [cyclePhase_red_walkB _ _ _ _ _ _ _ _ _ (by omega)]
        simp [State.vled, State.curV]
        omega
    · by_cases hd : rdu ≤ rt + d
      · right
        rw [cyclePhase_red_noWalk_go _ _ _ _ _ _ _ _ _ hd]
        simp [State.vled, State.curV, VSel.next] <;> omega
      · left
        rw [cyclePhase_red_noWalk_stay _ _ _ _ _ _ _ _ _ (by omega)]
        simp [State.vled, State.curV]
        omega
  · -- yellow
    by_cases hd : ydu ≤ yt + d
    · right
      rw [cyclePhase_yellow_go _ _ _ _ _ _ _ _ _ _ hd]
      simp [State.vled, State.curV, VSel.next] <;> omega
    · left
      rw [cyclePhase_yellow_stay _ _ _ _ _ _ _ _ _ _ (by omega)]
      simp [State.vled, State.curV]
      omega
  · -- green
    by_cases hd : gdu ≤ gt + d
    · right
      rw [cyclePhase_green_go _ _ _ _ _ _ _ _ _ _ hd]
      simp [State.vled, State.curV, VSel.next] <;> omega
    · left
      rw [cyclePhase_green_stay _ _ _ _ _ _ _ _ _ _ (by omega)]
      simp [State.vled, State.curV]
      omega

/-- On a tick whose walk-request block does not take the early exit, the
vehicle pointer either stays with the current LED's timer accumulated
below its duration, or moves to the cyclically next LED with the departed
timer reset, the latter exactly when the accumulated timer reaches the
duration. -/
theorem tick_sel_cases (s : State) (d : Nat) (b : Bool)
    (hne : ¬ earlyExit s b) :
    ((tickState s d b).pVehicleLed = s.pVehicleLed ∧
       ((tickState s d b).vled s.pVehicleLed).activeTimer =
         s.curV.activeTimer + d ∧
       s.curV.activeTimer + d < s.curV.activeDuration) ∨
    ((tickState s d b).pVehicleLed = s.pVehicleLed.next ∧
       ((tickState s d b).vled s.pVehicleLed).activeTimer = 0 ∧
       s.curV.activeDuration ≤ s.curV.activeTimer + d) := by
  have hw := walkPhase_keepsB s b hne
  have hc := cyclePhase_sel_cases (walkPhase s b) d
  rw [hw] at hc
  rw [tickState, tick, hw]
  exact hc

end TLB

/-- The abstract phase the TrafficLights.ino vehicle pin denotes. -/
def TL.phaseOf (s : TL.State) : Phase :=
  if s.vehicleLed.ledPinNumber = TL.GREEN_PIN then .green
  else if s.vehicleLed.ledPinNumber = TL.YELLOW_PIN then .yellow
  else .red

/-- The abstract phase the TrafficLightsButton.ino vehicle pointer denotes. -/
def TLB.phaseOf (t : TLB.State) : Phase :=
  match t.pVehicleLed with
  | .green => Phase.green
  | .yellow => Phase.yellow
  | .red => Phase.red

instance (s : TL.State) (b : Bool) : Decidable (TL.earlyExit s b) := by
  unfold TL.earlyExit
  infer_instance

instance (t : TLB.State) (b : Bool) : Decidable (TLB.earlyExit t b) := by
  unfold TLB.earlyExit
  infer_instance

instance (t : TLB.State) : Decidable (TLB.Inv t) := by
  unfold TLB.Inv
  infer_instance

instance (s : TL.State) : Decidable (TL.Inv s) := by
  unfold TL.Inv
  infer_instance

/-- On a tick that begins with the vehicle light red, the walk-request
block leaves the flag false — whether it was pending, freshly latched this
tick, or absent — and touches no LED. -/
theorem TL.walkPhase_red_clears (s : TL.State) (b : Bool)
    (h : s.vehicleLed.ledPinNumber = TL.RED_PIN) :
    (TL.walkPhase s b).walkRequested = false ∧
    (TL.walkPhase s b).vehicleLed = s.vehicleLed ∧
    (TL.walkPhase s b).pedestrianLed = s.pedestrianLed := by
  obtain ⟨⟨vp, vt⟩, ⟨pp, pt⟩, w⟩ := s
  simp only at h
  subst h
  cases w <;> cases b <;>
    simp_all [TL.walkPhase, TL.RED_PIN, TL.GREEN_PIN]

/-- A tick that begins with the vehicle light red always ends with the
walk-request flag false. -/
theorem TL.tick_red_clears (s : TL.State) (d : Nat) (b : Bool)
    (h : s.vehicleLed.ledPinNumber = TL.RED_PIN) :
    (TL.tickState s d b).walkRequested = false := by
  rw [TL.tickState, TL.tick, TL.cyclePhase_keeps_walkRequested]
  exact (TL.walkPhase_red_clears s b h).1

/-- With no pending request and no push, the walk-request block leaves the
flag false. -/
theorem TL.walkPhase_flag_false (s : TL.State)
    (hw : s.walkRequested = false) :
    (TL.walkPhase s false).walkRequested = false := by
  obtain ⟨⟨vp, vt⟩, ⟨pp, pt⟩, w⟩ := s
  simp only at hw
  subst hw
  simp [TL.walkPhase]

/-- On a tick that begins with the vehicle pointer on the red LED, the
walk-request block leaves the flag false and touches nothing else. -/
theorem TLB.walkPhase_red_clearsB (t : TLB.State) (b : Bool)
    (h : t.pVehicleLed = TLB.VSel.red) :
    (TLB.walkPhase t b).walkRequested = false ∧
    (TLB.walkPhase t b).pVehicleLed = t.pVehicleLed := by
  obtain ⟨rl, yl, gl, wl, nl, v, p, w⟩ := t
  simp only at h
  subst h
  cases w <;> cases b <;>
    simp_all [TLB.walkPhase, TLB.State.curV, TLB.State.setCurV]

/-- A tick that begins on the red LED always ends with the walk-request
flag false. -/
theorem TLB.tick_red_clearsB (t : TLB.State) (d : Nat) (b : Bool)
    (h : t.pVehicleLed = TLB.VSel.red) :
    (TLB.tickState t d b).walkRequested = false := by
  rw [TLB.tickState, TLB.tick, TLB.cyclePhase_keeps_walkRequestedB]
  exact (TLB.walkPhase_red_clearsB t b h).1

/-- With no pending request and no push, the walk-request block leaves the
flag false. -/
theorem TLB.walkPhase_flag_falseB (t : TLB.State)
    (hw : t.walkRequested = false) :
    (TLB.walkPhase t false).walkRequested = false := by
  obtain ⟨rl, yl, gl, wl, nl, v, p, w⟩ := t
  simp only at hw
  subst hw
  cases v <;> simp [TLB.walkPhase, TLB.State.curV, TLB.State.setCurV]

/-- C4 (counterexample): a tick is not limited to one vehicle-phase step.
From the reachable state green with timer 5000 and a latched walk request
(reached by pushing the button at green/0 with delta 4000, then delta
1000), a single tick with delta 2000 takes the early exit to yellow and
then the yellow-to-red transition, landing on red — two steps in one
tick. -/
theorem claim_C4_counterexample :
    (TL.tickState (TL.tickState TL.initialState 4000 true) 1000 false).vehicleLed.ledPinNumber
        = TL.GREEN_PIN ∧
    (TL.tickState (TL.tickState TL.initialState 4000 true) 1000 false).walkRequested
        = true ∧
    (TL.tickState (TL.tickState (TL.tickState TL.initialState 4000 true) 1000 false) 2000 false).vehicleLed.ledPinNumber
        = TL.RED_PIN := by
  decide

/-- C5 (counterexample): a green phase occupancy can end with cumulative
elapsed time 5000, strictly less than the configured green duration 15000:
from the reachable state green with timer 5000 and a latched request, the
next tick exits green via the early-exit shortcut. -/
theorem claim_C5_counterexample :
    (TL.tickState (TL.tickState TL.initialState 4000 true) 1000 false).vehicleLed
        = ⟨TL.GREEN_PIN, 5000⟩ ∧
    (TL.tickState (TL.tickState TL.initialState 4000 true) 1000 false).walkRequested
        = true ∧
    (TL.tickState (TL.tickState (TL.tickState TL.initialState 4000 true) 1000 false) 1 false).vehicleLed.ledPinNumber
        = TL.YELLOW_PIN ∧
    5000 < TL.GREEN_DURATION := by
  decide

/-- C7 (counterexample): the green duration is 15000 in BOTH variants; it
is 10000 in neither, contradicting the claimed 10000 of the "non-button"
variant. -/
theorem claim_C7_counterexample :
    TL.GREEN_DURATION = 15000 ∧ TLB.GREEN_DURATION = 15000 ∧
    ¬ (TL.GREEN_DURATION = 10000 ∨ TLB.GREEN_DURATION = 10000) := by
  decide

/-- C7 (amended): the compile-time constants of both variants: red 10000,
yellow 2000, green 15000, warning-blink half-period 500 and debounce
window 50, identical across the two files. -/
theorem claim_C7_constants :
    TL.RED_DURATION = 10000 ∧ TL.YELLOW_DURATION = 2000 ∧
    TL.GREEN_DURATION = 15000 ∧ TL.WARNING_BLINK_INTERVAL = 500 ∧
    TL.WALK_BUTTON_DEBOUNCE = 50 ∧
    TLB.RED_DURATION = 10000 ∧ TLB.YELLOW_DURATION = 2000 ∧
    TLB.GREEN_DURATION = 15000 ∧ TLB.WARNING_BLINK_INTERVAL = 500 ∧
    TLB.WALK_BUTTON_DEBOUNCE = 50 := by
  decide

/-- C8 (counterexample): the TrafficLights.ino variant (the one the spec
calls the no-button variant and claims never clears the latch) does clear
the walk-request latch on a red tick: from red with a pending request, one
tick leaves the request cleared. -/
theorem claim_C8_counterexample :
    ((⟨⟨TL.RED_PIN, 0⟩, ⟨TL.WALK_PIN, 0⟩, true⟩ : TL.State).walkRequested = true) ∧
    (TL.tickState ⟨⟨TL.RED_PIN, 0⟩, ⟨TL.WALK_PIN, 0⟩, true⟩ 100 false).walkRequested
        = false := by
  decide

/-- Consequence of the TrafficLights.ino invariant: the vehicle pin is
valid and its timer is below the configured duration of its phase. -/
theorem TL.inv_pin_timer (s : TL.State) (h : TL.Inv s) :
    TL.validVehiclePin s ∧
    s.vehicleLed.activeTimer < TL.durationOfPin s.vehicleLed.ledPinNumber := by
  rcases h with ⟨h1, h2, _⟩ | ⟨h1, h2, _⟩ | ⟨h1, h2, _⟩
  · exact ⟨Or.inl h1, by rw [h1]; simpa [TL.durationOfPin] using h2⟩
  · refine ⟨Or.inr (Or.inl h1), ?_⟩
    rw [h1]
    simpa [TL.durationOfPin, TL.YELLOW_PIN, TL.GREEN_PIN] using h2
  · refine ⟨Or.inr (Or.inr h1), ?_⟩
    rw [h1]
    simpa [TL.durationOfPin, TL.RED_PIN, TL.YELLOW_PIN, TL.GREEN_PIN] using h2

/-- Consequence of the TrafficLightsButton.ino invariant: the current
vehicle LED's timer is below its duration. -/
theorem TLB.inv_cur_lt (t : TLB.State) (h : TLB.Inv t) :
    t.curV.activeTimer < t.curV.activeDuration := by
  obtain ⟨e1, e2, e3, e4, e5, e6, e7, e8, hv⟩ := h
  rcases hv with ⟨hv, h2, _⟩ | ⟨hv, h2, _⟩ | ⟨hv, h2, _⟩ <;>
    rw [TLB.curV_eq_vled, hv]
  · show t.greenLed.activeTimer < t.greenLed.activeDuration
    rw [e6]
    exact h2
  · show t.yellowLed.activeTimer < t.yellowLed.activeDuration
    rw [e4]
    exact h2
  · show t.redLed.activeTimer < t.redLed.activeDuration
    rw [e2]
    exact h2

/-- On a red tick the walk-request block only forces the flag to false. -/
theorem TL.walkPhase_red_eq (vt pp pt : Nat) (w b : Bool) :
    TL.walkPhase ⟨⟨TL.RED_PIN, vt⟩, ⟨pp, pt⟩, w⟩ b =
      ⟨⟨TL.RED_PIN, vt⟩, ⟨pp, pt⟩, false⟩ := by
  cases w <;> cases b <;> simp [TL.walkPhase, TL.RED_PIN, TL.GREEN_PIN]

/-- On a red tick the walk-request block only forces the flag to false. -/
theorem TLB.walkPhase_red_eqB (rl yl gl : TLB.TimedDigitalLed)
    (wl nl : TLB.DigitalLed) (p : TLB.PSel) (w b : Bool) :
    TLB.walkPhase ⟨rl, yl, gl, wl, nl, .red, p, w⟩ b =
      ⟨rl, yl, gl, wl, nl, .red, p, false⟩ := by
  cases w <;> cases b <;>
    simp [TLB.walkPhase, TLB.State.curV, TLB.State.setCurV]

/-- C9 (counterexample): on the tick where red's elapsed reaches the full
red duration (reachable state red/9500, delta 500), the vehicle moves to
green, but the pedestrian signal driven during that tick is the blinking
don't-walk warning — emitted by the red branch before the red-to-green
check — not a steady don't-walk derived from the updated (green) phase. -/
theorem claim_C9_counterexample :
    (TL.tickState (TL.tickState (TL.tickState TL.initialState 15000 false)
        2000 false) 9500 false).vehicleLed = ⟨TL.RED_PIN, 9500⟩ ∧
    (TL.tick (TL.tickState (TL.tickState (TL.tickState TL.initialState
        15000 false) 2000 false) 9500 false) 500 false).pedEmit
      = PedEmit.blinking TL.NO_WALK_PIN ∧
    (TL.tick (TL.tickState (TL.tickState (TL.tickState TL.initialState
        15000 false) 2000 false) 9500 false) 500 false).state.vehicleLed.ledPinNumber
      = TL.GREEN_PIN := by
  decide

/-- C9 (amended): within a tick the latch is updated first (the
walk-request block), then the chain; on a tick that starts red and
transitions to green, the signal driven during the tick is the blinking
don't-walk warning — derived from the pre-transition red phase — while the
pedestrian state at the end of the tick is the don't-walk pin, consistent
with the updated green phase. -/
theorem claim_C9_amended :
    (∀ (s : TL.State) (d : Nat) (b : Bool),
        s.vehicleLed.ledPinNumber = TL.RED_PIN → TL.validPedPin s →
        (TL.tickState s d b).vehicleLed.ledPinNumber = TL.GREEN_PIN →
        (TL.tick s d b).pedEmit = PedEmit.blinking TL.NO_WALK_PIN ∧
        (TL.tickState s d b).pedestrianLed.ledPinNumber = TL.NO_WALK_PIN) ∧
    (∀ (t : TLB.State) (d : Nat) (b : Bool),
        t.pVehicleLed = TLB.VSel.red →
        (TLB.tickState t d b).pVehicleLed = TLB.VSel.green →
        (TLB.tick t d b).pedEmit
            = PedEmit.blinking t.noWalkLed.ledPinNumber ∧
        (TLB.tickState t d b).pPedestrianLed = TLB.PSel.noWalk) := by
  constructor
  · intro s d b hred hpv hto
    obtain ⟨⟨vp, vt⟩, ⟨pp, pt⟩, w⟩ := s
    simp only at hred
    subst hred
    rw [TL.tickState, TL.tick, TL.walkPhase_red_eq] at hto
    rw [TL.tickState, TL.tick, TL.walkPhase_red_eq]
    rcases hpv with hpp | hpp <;> simp only at hpp <;> subst hpp
    · by_cases hh : TL.RED_DURATION / 2 ≤ vt + d
      · rw [TL.cyclePhase_red_toNoWalk _ _ _ _ _ (by decide) (by decide) hh]
        exact ⟨rfl, rfl⟩
      · rw [TL.cyclePhase_red_walk _ _ _ _ _ (by decide) (by decide)
          (by omega)] at hto
        simp [TL.RED_PIN, TL.GREEN_PIN] at hto
    · rw [TL.cyclePhase_red_noWalk _ _ _ _ _ _ (by decide) (by decide)
        (by decide)]
      exact ⟨rfl, rfl⟩
  · intro t d b hred hto
    obtain ⟨⟨rp, rdu, rt⟩, yl, gl, wl, nl, v, p, w⟩ := t
    simp only at hred
    subst hred
    rw [TLB.tickState, TLB.tick, TLB.walkPhase_red_eqB] at hto
    rw [TLB.tickState, TLB.tick, TLB.walkPhase_red_eqB]
    cases p
    · by_cases hgo : rdu ≤ rt + d
      · rw [TLB.cyclePhase_red_toNoWalk_go _ _ _ _ _ _ _ _ _ hgo]
        exact ⟨rfl, rfl⟩
      · exfalso
        by_cases hh : rdu / 2 ≤ rt + d
        · rw [TLB.cyclePhase_red_toNoWalk_stay _ _ _ _ _ _ _ _ _ hh
            (by omega)] at hto
          simp at hto
        · rw [TLB.cyclePhase_red_walkB _ _ _ _ _ _ _ _ _ (by omega)] at hto
          simp at hto
    · by_cases hgo : rdu ≤ rt + d
      · rw [TLB.cyclePhase_red_noWalk_go _ _ _ _ _ _ _ _ _ hgo]
        exact ⟨rfl, rfl⟩
      · rw [TLB.cyclePhase_red_noWalk_stay _ _ _ _ _ _ _ _ _ (by omega)]
          at hto
        simp at hto

/-- A tick that moves the vehicle light onto green ends with the latch
cleared: green is only entered from a red tick, whose walk-request block
cleared the flag. -/
theorem TL.enter_green_clears (s : TL.State) (d : Nat) (b : Bool)
    (hv : TL.validVehiclePin s)
    (hng : s.vehicleLed.ledPinNumber ≠ TL.GREEN_PIN)
    (hto : (TL.tickState s d b).vehicleLed.ledPinNumber = TL.GREEN_PIN) :
    (TL.tickState s d b).walkRequested = false := by
  rcases hv with h | h | h
  · exact absurd h hng
  · exfalso
    have hne : ¬ TL.earlyExit s b := by
      simp [TL.earlyExit, h, TL.YELLOW_PIN, TL.GREEN_PIN]
    rcases TL.tick_pin_cases s d b (Or.inr (Or.inl h)) hne with
      ⟨h1, _, _⟩ | ⟨h1, _, _⟩
    · rw [hto, h] at h1
      exact absurd h1 (by decide)
    · rw [hto, h] at h1
      simp [TL.nextPin, TL.YELLOW_PIN, TL.GREEN_PIN, TL.RED_PIN] at h1
  · exact TL.tick_red_clears s d b h

/-- A tick that moves the vehicle pointer onto the green LED ends with the
latch cleared. -/
theorem TLB.enter_green_clearsB (t : TLB.State) (d : Nat) (b : Bool)
    (hng : t.pVehicleLed ≠ TLB.VSel.green)
    (hto : (TLB.tickState t d b).pVehicleLed = TLB.VSel.green) :
    (TLB.tickState t d b).walkRequested = false := by
  rcases hv : t.pVehicleLed with _ | _ | _
  · exact TLB.tick_red_clearsB t d b hv
  · exfalso
    have hne : ¬ TLB.earlyExit t b := by
      simp [TLB.earlyExit, hv]
    rcases TLB.tick_sel_cases t d b hne with ⟨h1, _, _⟩ | ⟨h1, _, _⟩
    · rw [hto, hv] at h1
      exact absurd h1 (by decide)
    · rw [hto, hv] at h1
      simp [TLB.VSel.next] at h1
  · exact absurd hv hng

/-- C8 (amended): the latch-handling blocks of the two variants are
equivalent, not different: under the evident correspondence — same
abstract phase, same current-phase timer, same latch flag, the button
variant in a reachable-shape state — the two walk-request blocks produce
the same abstract phase, the same current-phase timer and the same latch
flag; both clear the latch on red and both use the divide-by-3 early
exit. -/
theorem claim_C8_amended (s : TL.State) (t : TLB.State) (b : Bool)
    (hv : TL.validVehiclePin s) (hi : TLB.Inv t)
    (hph : TL.phaseOf s = TLB.phaseOf t)
    (htm : s.vehicleLed.activeTimer = t.curV.activeTimer)
    (hfl : s.walkRequested = t.walkRequested) :
    TL.phaseOf (TL.walkPhase s b) = TLB.phaseOf (TLB.walkPhase t b) ∧
    (TL.walkPhase s b).vehicleLed.activeTimer
        = (TLB.walkPhase t b).curV.activeTimer ∧
    (TL.walkPhase s b).walkRequested = (TLB.walkPhase t b).walkRequested := by
  obtain ⟨⟨vp, vt⟩, ⟨pp, pt⟩, w⟩ := s
  obtain ⟨⟨rp, rdu, rt⟩, ⟨yp, ydu, yt⟩, ⟨gp, gdu, gt⟩, wl, nl, v, p, w2⟩ := t
  simp only [TLB.Inv] at hi
  obtain ⟨e1, e2, e3, e4, e5, e6, e7, e8, hvv⟩ := hi
  simp only at hfl
  subst hfl
  rcases hv with h | h | h <;> simp only at h <;> subst h <;> cases v <;>
    simp [TL.phaseOf, TLB.phaseOf, TL.GREEN_PIN, TL.YELLOW_PIN,
      TL.RED_PIN] at hph
  · -- green / green
    rcases hvv with ⟨_, h2, h3, h4, h5⟩ | ⟨hbad, _, _, _, _⟩ |
      ⟨hbad, _, _, _, _⟩
    · subst e6
      have htm2 : vt = gt := htm
      by_cases hwb : (w || b) = true
      · by_cases hge : TL.GREEN_DURATION / 3 ≤ vt
        · have hge2 : TLB.GREEN_DURATION / 3 ≤ gt := by
            simp only [TL.GREEN_DURATION] at hge
            simp only [TLB.GREEN_DURATION]
            omega
          rw [TL.walkPhase_early _ _ _ _ _ hwb hge,
            TLB.walkPhase_earlyB _ _ _ _ _ _ _ _ _ _ hwb hge2]
          refine ⟨rfl, ?_, rfl⟩
          show (0 : Nat) = yt
          omega
        · have hng1 : ¬(TL.GREEN_PIN = TL.GREEN_PIN ∧
              TL.GREEN_DURATION / 3 ≤ vt) := fun hc => absurd hc.2 hge
          have hng2 : ¬(TLB.VSel.green = TLB.VSel.green ∧
              (⟨gp, TLB.GREEN_DURATION, gt⟩ :
                TLB.TimedDigitalLed).activeDuration / 3 ≤
              (⟨gp, TLB.GREEN_DURATION, gt⟩ :
                TLB.TimedDigitalLed).activeTimer) := by
            intro hc
            have hc2 := hc.2
            simp only at hc2
            simp only [TLB.GREEN_DURATION] at hc2
            simp only [TL.GREEN_DURATION] at hge
            omega
          rw [TL.walkPhase_hold _ _ _ _ _ _ hwb hng1 (by decide),
            TLB.walkPhase_holdB _ _ _ _ _ _ _ _ _ hwb hng2 (by decide)]
          exact ⟨rfl, htm, rfl⟩
      · simp only [Bool.or_eq_true, not_or, Bool.not_eq_true] at hwb
        obtain ⟨hw0, hb0⟩ := hwb
        subst hw0
        subst hb0
        rw [TL.walkPhase_skip, TLB.walkPhase_skipB]
        exact ⟨rfl, htm, rfl⟩
    · exact absurd hbad (by decide)
    · exact absurd hbad (by decide)
  · -- yellow / yellow
    have htm2 : vt = yt := htm
    by_cases hwb : (w || b) = true
    · have hng1 : ¬(TL.YELLOW_PIN = TL.GREEN_PIN ∧
          TL.GREEN_DURATION / 3 ≤ vt) := fun hc => absurd hc.1 (by decide)
      have hng2 : ¬(TLB.VSel.yellow = TLB.VSel.green ∧
          (⟨gp, gdu, gt⟩ : TLB.TimedDigitalLed).activeDuration / 3 ≤
          (⟨gp, gdu, gt⟩ : TLB.TimedDigitalLed).activeTimer) :=
        fun hc => absurd hc.1 (by decide)
      rw [TL.walkPhase_hold _ _ _ _ _ _ hwb hng1 (by decide),
        TLB.walkPhase_holdB _ _ _ _ _ _ _ _ _ hwb hng2 (by decide)]
      exact ⟨rfl, htm, rfl⟩
    · simp only [Bool.or_eq_true, not_or, Bool.not_eq_true] at hwb
      obtain ⟨hw0, hb0⟩ := hwb
      subst hw0
      subst hb0
      rw [TL.walkPhase_skip, TLB.walkPhase_skipB]
      exact ⟨rfl, htm, rfl⟩
  · -- red / red
    have htm2 : vt = rt := htm
    by_cases hwb : (w || b) = true
    · rw [TL.walkPhase_clear _ _ _ _ _ hwb,
        TLB.walkPhase_clearB _ _ _ _ _ _ _ _ hwb]
      exact ⟨rfl, htm, rfl⟩
    · simp only [Bool.or_eq_true, not_or, Bool.not_eq_true] at hwb
      obtain ⟨hw0, hb0⟩ := hwb
      subst hw0
      subst hb0
      rw [TL.walkPhase_skip, TLB.walkPhase_skipB]
      exact ⟨rfl, htm, rfl⟩

/-- C6: in both variants, any tick that begins with the vehicle light red
ends with the walk-request latch cleared; while the latch is pending a
further debounced edge changes nothing (the tick result is identical with
or without the edge); and a tick that enters green always enters it with
the latch cleared, so the latch never leaks into the next green cycle and
the early-exit shortcut can fire at most once per green phase. -/
theorem claim_C6_latch_clearing :
    (∀ (s : TL.State) (d : Nat) (b : Bool),
        s.vehicleLed.ledPinNumber = TL.RED_PIN →
        (TL.tickState s d b).walkRequested = false) ∧
    (∀ (s : TL.State) (d : Nat), s.walkRequested = true →
        TL.tick s d true = TL.tick s d false) ∧
    (∀ (s : TL.State) (d : Nat) (b : Bool), TL.validVehiclePin s →
        s.vehicleLed.ledPinNumber ≠ TL.GREEN_PIN →
        (TL.tickState s d b).vehicleLed.ledPinNumber = TL.GREEN_PIN →
        (TL.tickState s d b).walkRequested = false) ∧
    (∀ (t : TLB.State) (d : Nat) (b : Bool), t.pVehicleLed = TLB.VSel.red →
        (TLB.tickState t d b).walkRequested = false) ∧
    (∀ (t : TLB.State) (d : Nat), t.walkRequested = true →
        TLB.tick t d true = TLB.tick t d false) ∧
    (∀ (t : TLB.State) (d : Nat) (b : Bool),
        t.pVehicleLed ≠ TLB.VSel.green →
        (TLB.tickState t d b).pVehicleLed = TLB.VSel.green →
        (TLB.tickState t d b).walkRequested = false) := by
  refine ⟨?_, ?_, ?_, ?_, ?_, ?_⟩
  · exact TL.tick_red_clears
  · intro s d hw
    have : TL.walkPhase s true = TL.walkPhase s false := by
      obtain ⟨⟨vp, vt⟩, ⟨pp, pt⟩, w⟩ := s
      simp only at hw
      subst hw
      simp [TL.walkPhase]
    rw [TL.tick, TL.tick, this]
  · exact TL.enter_green_clears
  · exact TLB.tick_red_clearsB
  · intro t d hw
    have : TLB.walkPhase t true = TLB.walkPhase t false := by
      obtain ⟨rl, yl, gl, wl, nl, v, p, w⟩ := t
      simp only at hw
      subst hw
      simp [TLB.walkPhase]
    rw [TLB.tick, TLB.tick, this]
  · exact TLB.enter_green_clearsB

/-- C10: in both variants, a push on a tick that starts red is latched and
cleared by the same tick's request-clearing rule, which runs while the
light is still red (the walk block itself ends with the flag false and the
vehicle untouched); a tick that starts yellow never lands on green, and a
push latched during yellow is cleared on the first tick that starts red;
consequently every tick that enters green enters it with the latch
cleared, so a push made during yellow or red never triggers the early
green-to-yellow exit in a later cycle. -/
theorem claim_C10_yellow_red_push :
    (∀ (s : TL.State) (d : Nat), s.vehicleLed.ledPinNumber = TL.RED_PIN →
        (TL.walkPhase s true).walkRequested = false ∧
        (TL.walkPhase s true).vehicleLed = s.vehicleLed ∧
        (TL.tickState s d true).walkRequested = false) ∧
    (∀ (s : TL.State) (d : Nat) (b : Bool),
        s.vehicleLed.ledPinNumber = TL.YELLOW_PIN →
        (TL.tickState s d b).vehicleLed.ledPinNumber ≠ TL.GREEN_PIN ∧
        (∀ (d2 : Nat) (b2 : Bool),
            (TL.tickState s d b).vehicleLed.ledPinNumber = TL.RED_PIN →
            (TL.tickState (TL.tickState s d b) d2 b2).walkRequested = false)) ∧
    (∀ (s : TL.State) (d : Nat) (b : Bool), TL.validVehiclePin s →
        s.vehicleLed.ledPinNumber ≠ TL.GREEN_PIN →
        (TL.tickState s d b).vehicleLed.ledPinNumber = TL.GREEN_PIN →
        (TL.tickState s d b).walkRequested = false) ∧
    (∀ (t : TLB.State) (d : Nat), t.pVehicleLed = TLB.VSel.red →
        (TLB.walkPhase t true).walkRequested = false ∧
        (TLB.walkPhase t true).pVehicleLed = t.pVehicleLed ∧
        (TLB.tickState t d true).walkRequested = false) ∧
    (∀ (t : TLB.State) (d : Nat) (b : Bool),
        t.pVehicleLed = TLB.VSel.yellow →
        (TLB.tickState t d b).pVehicleLed ≠ TLB.VSel.green ∧
        (∀ (d2 : Nat) (b2 : Bool),
            (TLB.tickState t d b).pVehicleLed = TLB.VSel.red →
            (TLB.tickState (TLB.tickState t d b) d2 b2).walkRequested = false)) ∧
    (∀ (t : TLB.State) (d : Nat) (b : Bool),
        t.pVehicleLed ≠ TLB.VSel.green →
        (TLB.tickState t d b).pVehicleLed = TLB.VSel.green →
        (TLB.tickState t d b).walkRequested = false) := by
  refine ⟨?_, ?_, ?_, ?_, ?_, ?_⟩
  · intro s d h
    obtain ⟨hf, hveh, _⟩ := TL.walkPhase_red_clears s true h
    exact ⟨hf, hveh, TL.tick_red_clears s d true h⟩
  · intro s d b h
    constructor
    · intro hto
      have hne : ¬ TL.earlyExit s b := by
        simp [TL.earlyExit, h, TL.YELLOW_PIN, TL.GREEN_PIN]
      rcases TL.tick_pin_cases s d b (Or.inr (Or.inl h)) hne with
        ⟨h1, _, _⟩ | ⟨h1, _, _⟩
      · rw [hto, h] at h1
        exact absurd h1 (by decide)
      · rw [hto, h] at h1
        simp [TL.nextPin, TL.YELLOW_PIN, TL.GREEN_PIN, TL.RED_PIN] at h1
    · intro d2 b2 hred
      exact TL.tick_red_clears _ d2 b2 hred
  · exact TL.enter_green_clears
  · intro t d h
    obtain ⟨hf, hsel⟩ := TLB.walkPhase_red_clearsB t true h
    exact ⟨hf, hsel, TLB.tick_red_clearsB t d true h⟩
  · intro t d b h
    constructor
    · intro hto
      have hne : ¬ TLB.earlyExit t b := by
        simp [TLB.earlyExit, h]
      rcases TLB.tick_sel_cases t d b hne with ⟨h1, _, _⟩ | ⟨h1, _, _⟩
      · rw [hto, h] at h1
        exact absurd h1 (by decide)
      · rw [hto, h] at h1
        simp [TLB.VSel.next] at h1
    · intro d2 b2 hred
      exact TLB.tick_red_clearsB _ d2 b2 hred
  · exact TLB.enter_green_clearsB

/-- C1: in both variants, on any tick of a run in which no walk request is
ever latched (flag false, no push), the flag stays false and the vehicle
phase either stays put (exactly while the accumulated timer is below the
phase duration) or moves to its cyclic successor green-yellow-red-green
(exactly once the accumulated timer reaches the duration) — never
skipping or reversing. -/
theorem claim_C1_cycle_closure :
    (∀ (s : TL.State) (d : Nat), s.walkRequested = false →
        TL.validVehiclePin s →
        (TL.tickState s d false).walkRequested = false ∧
        ((TL.tickState s d false).vehicleLed.ledPinNumber
            = TL.nextPin s.vehicleLed.ledPinNumber ↔
          TL.durationOfPin s.vehicleLed.ledPinNumber
            ≤ s.vehicleLed.activeTimer + d) ∧
        ((TL.tickState s d false).vehicleLed.ledPinNumber
            = s.vehicleLed.ledPinNumber ↔
          s.vehicleLed.activeTimer + d
            < TL.durationOfPin s.vehicleLed.ledPinNumber)) ∧
    (∀ (t : TLB.State) (d : Nat), t.walkRequested = false →
        (TLB.tickState t d false).walkRequested = false ∧
        ((TLB.tickState t d false).pVehicleLed = t.pVehicleLed.next ↔
          t.curV.activeDuration ≤ t.curV.activeTimer + d) ∧
        ((TLB.tickState t d false).pVehicleLed = t.pVehicleLed ↔
          t.curV.activeTimer + d < t.curV.activeDuration)) := by
  constructor
  · intro s d hw hv
    have hne : ¬ TL.earlyExit s false := by
      simp [TL.earlyExit, hw]
    refine ⟨?_, ?_⟩
    · rw [TL.tickState, TL.tick, TL.cyclePhase_keeps_walkRequested]
      exact TL.walkPhase_flag_false s hw
    · have hc := TL.tick_pin_cases s d false hv hne
      rcases hv with h | h | h <;> rw [h] at hc ⊢ <;>
        rcases hc with ⟨h1, h2, h3⟩ | ⟨h1, h2, h3⟩ <;>
        rw [h1] <;>
        simp [TL.nextPin, TL.durationOfPin, TL.GREEN_PIN, TL.YELLOW_PIN,
          TL.RED_PIN] at h3 ⊢ <;>
        omega
  · intro t d hw
    have hne : ¬ TLB.earlyExit t false := by
      simp [TLB.earlyExit, hw]
    refine ⟨?_, ?_⟩
    · rw [TLB.tickState, TLB.tick, TLB.cyclePhase_keeps_walkRequestedB]
      exact TLB.walkPhase_flag_falseB t hw
    · have hc := TLB.tick_sel_cases t d false hne
      rcases hv : t.pVehicleLed with _ | _ | _ <;>
        rcases hc with ⟨h1, h2, h3⟩ | ⟨h1, h2, h3⟩ <;>
        rw [h1, hv] <;>
        simp [TLB.VSel.next] <;>
        omega

/-- C3: in every reachable state of either variant, the pedestrian light
is a function of the vehicle phase and its elapsed timer: it shows walk
exactly when the vehicle light is red with the red timer below half the
red duration, and don't-walk otherwise (outside red, and in the second
half of red); moreover a red tick drives the blinking warning exactly when
the accumulated red timer has reached half the red duration, and the
steady walk signal while it is below. -/
theorem claim_C3_ped_derivation :
    (∀ s : TL.State, TL.Reachable s →
        (s.pedestrianLed.ledPinNumber = TL.WALK_PIN ↔
          (s.vehicleLed.ledPinNumber = TL.RED_PIN ∧
           s.vehicleLed.activeTimer < TL.RED_DURATION / 2)) ∧
        (s.vehicleLed.ledPinNumber ≠ TL.RED_PIN →
          s.pedestrianLed.ledPinNumber = TL.NO_WALK_PIN) ∧
        (s.vehicleLed.ledPinNumber = TL.RED_PIN →
          TL.RED_DURATION / 2 ≤ s.vehicleLed.activeTimer →
          s.pedestrianLed.ledPinNumber = TL.NO_WALK_PIN) ∧
        (∀ (d : Nat) (b : Bool), s.vehicleLed.ledPinNumber = TL.RED_PIN →
          TL.RED_DURATION / 2 ≤ s.vehicleLed.activeTimer + d →
          (TL.tick s d b).pedEmit = PedEmit.blinking TL.NO_WALK_PIN) ∧
        (∀ (d : Nat) (b : Bool), s.vehicleLed.ledPinNumber = TL.RED_PIN →
          s.vehicleLed.activeTimer + d < TL.RED_DURATION / 2 →
          (TL.tick s d b).pedEmit = PedEmit.steady TL.WALK_PIN)) ∧
    (∀ t : TLB.State, TLB.Reachable t →
        (t.pPedestrianLed = TLB.PSel.walk ↔
          (t.pVehicleLed = TLB.VSel.red ∧
           t.redLed.activeTimer < TLB.RED_DURATION / 2)) ∧
        (t.pVehicleLed ≠ TLB.VSel.red →
          t.pPedestrianLed = TLB.PSel.noWalk) ∧
        (t.pVehicleLed = TLB.VSel.red →
          TLB.RED_DURATION / 2 ≤ t.redLed.activeTimer →
          t.pPedestrianLed = TLB.PSel.noWalk) ∧
        (∀ (d : Nat) (b : Bool), t.pVehicleLed = TLB.VSel.red →
          TLB.RED_DURATION / 2 ≤ t.redLed.activeTimer + d →
          (TLB.tick t d b).pedEmit = PedEmit.blinking TLB.NO_WALK_PIN) ∧
        (∀ (d : Nat) (b : Bool), t.pVehicleLed = TLB.VSel.red →
          t.redLed.activeTimer + d < TLB.RED_DURATION / 2 →
          (TLB.tick t d b).pedEmit = PedEmit.steady TLB.WALK_PIN)) := by
  constructor
  · intro s hr
    have hi := TL.inv_of_reachable hr
    obtain ⟨⟨vp, vt⟩, ⟨pp, pt⟩, w⟩ := s
    simp only [TL.Inv] at hi
    refine ⟨?_, ?_, ?_, ?_, ?_⟩
    · rcases hi with ⟨h1, h2, h3⟩ | ⟨h1, h2, h3⟩ | ⟨h1, h2, h3⟩
      · subst h1; subst h3
        simp [TL.NO_WALK_PIN, TL.WALK_PIN, TL.GREEN_PIN, TL.RED_PIN]
      · subst h1; subst h3
        simp [TL.NO_WALK_PIN, TL.WALK_PIN, TL.YELLOW_PIN, TL.RED_PIN]
      · subst h1
        rcases h3 with ⟨ha, hb⟩ | ⟨ha, hb⟩ <;> subst hb <;>
          simp [TL.NO_WALK_PIN, TL.WALK_PIN, TL.RED_PIN] <;> omega
    · intro hnr
      rcases hi with ⟨h1, h2, h3⟩ | ⟨h1, h2, h3⟩ | ⟨h1, h2, h3⟩
      · subst h1; exact h3
      · subst h1; exact h3
      · exact absurd h1 hnr
    · intro hred hge
      simp only at hred hge
      rcases hi with ⟨h1, h2, h3⟩ | ⟨h1, h2, h3⟩ | ⟨h1, h2, h3⟩
      · subst h1; exact absurd hred (by decide)
      · subst h1; exact absurd hred (by decide)
      · rcases h3 with ⟨ha, hb⟩ | ⟨ha, hb⟩
        · exact absurd hge (by omega)
        · exact hb
    · intro d b hred hge
      simp only at hred hge
      subst hred
      rw [TL.tick, TL.walkPhase_red_eq]
      rcases hi with ⟨h1, h2, h3⟩ | ⟨h1, h2, h3⟩ | ⟨h1, h2, h3⟩
      · exact absurd h1 (by decide)
      · exact absurd h1 (by decide)
      · rcases h3 with ⟨ha, hb⟩ | ⟨ha, hb⟩ <;> subst hb
        · rw [TL.cyclePhase_red_toNoWalk _ _ _ _ _ (by decide) (by decide) hge]
        · rw [TL.cyclePhase_red_noWalk _ _ _ _ _ _ (by decide) (by decide)
            (by decide)]
    · intro d b hred hlt
      simp only at hred hlt
      subst hred
      rw [TL.tick, TL.walkPhase_red_eq]
      rcases hi with ⟨h1, h2, h3⟩ | ⟨h1, h2, h3⟩ | ⟨h1, h2, h3⟩
      · exact absurd h1 (by decide)
      · exact absurd h1 (by decide)
      · rcases h3 with ⟨ha, hb⟩ | ⟨ha, hb⟩ <;> subst hb
        · rw [TL.cyclePhase_red_walk _ _ _ _ _ (by decide) (by decide) hlt]
        · exact absurd hlt (by omega)
  · intro t hr
    have hi := TLB.inv_of_reachableB hr
    obtain ⟨⟨rp, rdu, rt⟩, ⟨yp, ydu, yt⟩, ⟨gp, gdu, gt⟩, wl, nl, v, p, w⟩ := t
    simp only [TLB.Inv] at hi
    obtain ⟨e1, e2, e3, e4, e5, e6, e7, e8, hv⟩ := hi
    subst e2
    refine ⟨?_, ?_, ?_, ?_, ?_⟩
    · rcases hv with ⟨h1, h2, h3, h4, h5⟩ | ⟨h1, h2, h3, h4, h5⟩ |
        ⟨h1, h2, h3, h4, h5⟩
      · subst h1; subst h5; simp
      · subst h1; subst h5; simp
      · subst h1
        rcases h5 with ⟨ha, hb⟩ | ⟨ha, hb⟩ <;> subst hb <;> simp <;> omega
    · intro hnr
      rcases hv with ⟨h1, h2, h3, h4, h5⟩ | ⟨h1, h2, h3, h4, h5⟩ |
        ⟨h1, h2, h3, h4, h5⟩
      · subst h1; exact h5
      · subst h1; exact h5
      · exact absurd h1 hnr
    · intro hred hge
      simp only at hred hge
      rcases hv with ⟨h1, h2, h3, h4, h5⟩ | ⟨h1, h2, h3, h4, h5⟩ |
        ⟨h1, h2, h3, h4, h5⟩
      · subst h1; exact absurd hred (by decide)
      · subst h1; exact absurd hred (by decide)
      · rcases h5 with ⟨ha, hb⟩ | ⟨ha, hb⟩
        · exact absurd hge (by omega)
        · exact hb
    · intro d b hred hge
      simp only at hred hge
      subst hred
      rw [TLB.tick, TLB.walkPhase_red_eqB]
      rcases hv with ⟨h1, h2, h3, h4, h5⟩ | ⟨h1, h2, h3, h4, h5⟩ |
        ⟨h1, h2, h3, h4, h5⟩
      · exact absurd h1 (by decide)
      · exact absurd h1 (by decide)
      · rcases h5 with ⟨ha, hb⟩ | ⟨ha, hb⟩ <;> subst hb
        · by_cases hgo : TLB.RED_DURATION ≤ rt + d
          · rw [TLB.cyclePhase_red_toNoWalk_go _ _ _ _ _ _ _ _ _ hgo, e8]
          · rw [TLB.cyclePhase_red_toNoWalk_stay _ _ _ _ _ _ _ _ _ hge
              (by omega), e8]
        · by_cases hgo : TLB.RED_DURATION ≤ rt + d
          · rw [TLB.cyclePhase_red_noWalk_go _ _ _ _ _ _ _ _ _ hgo, e8]
          · rw [TLB.cyclePhase_red_noWalk_stay _ _ _ _ _ _ _ _ _ (by omega),
              e8]
    · intro d b hred hlt
      simp only at hred hlt
      subst hred
      rw [TLB.tick, TLB.walkPhase_red_eqB]
      rcases hv with ⟨h1, h2, h3, h4, h5⟩ | ⟨h1, h2, h3, h4, h5⟩ |
        ⟨h1, h2, h3, h4, h5⟩
      · exact absurd h1 (by decide)
      · exact absurd h1 (by decide)
      · rcases h5 with ⟨ha, hb⟩ | ⟨ha, hb⟩ <;> subst hb
        · rw [TLB.cyclePhase_red_walkB _ _ _ _ _ _ _ _ _ hlt, e7]
        · exact absurd hlt (by omega)

/-- C2: in both variants, on a tick with the latch pending and the light
green: if the green timer (as read at the start of the tick, before this
tick's delta is added) has reached a third of the green duration, the
walk-request block immediately moves the light to yellow with the timer
reset — before the full green duration has elapsed — and the tick ends on
yellow with timer delta when delta is below the yellow duration; if the
timer is below a third, the walk-request block changes nothing and the
normal rule applies: the tick leaves green exactly when the accumulated
timer reaches the full green duration. -/
theorem claim_C2_early_exit_rule :
    (∀ (s : TL.State) (d : Nat) (b : Bool), s.walkRequested = true →
        s.vehicleLed.ledPinNumber = TL.GREEN_PIN →
        (TL.GREEN_DURATION / 3 ≤ s.vehicleLed.activeTimer →
          (TL.walkPhase s b).vehicleLed = ⟨TL.YELLOW_PIN, 0⟩ ∧
          (d < TL.YELLOW_DURATION →
            (TL.tickState s d b).vehicleLed = ⟨TL.YELLOW_PIN, d⟩)) ∧
        (s.vehicleLed.activeTimer < TL.GREEN_DURATION / 3 →
          (TL.walkPhase s b).vehicleLed = s.vehicleLed ∧
          ((TL.tickState s d b).vehicleLed.ledPinNumber = TL.YELLOW_PIN ↔
            TL.GREEN_DURATION ≤ s.vehicleLed.activeTimer + d) ∧
          ((TL.tickState s d b).vehicleLed.ledPinNumber = TL.GREEN_PIN ↔
            s.vehicleLed.activeTimer + d < TL.GREEN_DURATION))) ∧
    (∀ (t : TLB.State) (d : Nat) (b : Bool), t.walkRequested = true →
        t.pVehicleLed = TLB.VSel.green →
        (t.curV.activeDuration / 3 ≤ t.curV.activeTimer →
          (TLB.walkPhase t b).pVehicleLed = TLB.VSel.yellow ∧
          (TLB.walkPhase t b).greenLed.activeTimer = 0) ∧
        (t.curV.activeTimer < t.curV.activeDuration / 3 →
          (TLB.walkPhase t b).pVehicleLed = TLB.VSel.green ∧
          (TLB.walkPhase t b).greenLed = t.greenLed ∧
          ((TLB.tickState t d b).pVehicleLed = TLB.VSel.yellow ↔
            t.curV.activeDuration ≤ t.curV.activeTimer + d) ∧
          ((TLB.tickState t d b).pVehicleLed = TLB.VSel.green ↔
            t.curV.activeTimer + d < t.curV.activeDuration))) := by
  constructor
  · intro s d b hw hg
    obtain ⟨⟨vp, vt⟩, ⟨pp, pt⟩, w⟩ := s
    simp only at hw hg
    subst hw
    subst hg
    have hww : (true || b) = true := by simp
    constructor
    · intro hge
      constructor
      · rw [TL.walkPhase_early _ _ _ _ _ hww hge]
      · intro hd
        rw [TL.tickState, TL.tick, TL.walkPhase_early _ _ _ _ _ hww hge,
          TL.cyclePhase_yellow, if_neg (by omega)]
        simp
    · intro hlt
      simp only at hlt
      have hng : ¬(TL.GREEN_PIN = TL.GREEN_PIN ∧
          TL.GREEN_DURATION / 3 ≤ vt) := fun hc => absurd hc.2 (by omega)
      have hnr : TL.GREEN_PIN ≠ TL.RED_PIN := by decide
      refine ⟨by rw [TL.walkPhase_hold _ _ _ _ _ _ hww hng hnr], ?_⟩
      rw [TL.tickState, TL.tick, TL.walkPhase_hold _ _ _ _ _ _ hww hng hnr,
        TL.cyclePhase_green]
      split_ifs with hdg <;>
        simp [TL.YELLOW_PIN, TL.GREEN_PIN] <;> omega
  · intro t d b hw hg
    obtain ⟨rl, yl, ⟨gp, gd, gt⟩, wl, nl, v, p, w⟩ := t
    simp only at hw hg
    subst hw
    subst hg
    simp only [TLB.State.curV]
    have hww : (true || b) = true := by simp
    constructor
    · intro hge
      rw [TLB.walkPhase_earlyB _ _ _ _ _ _ _ _ _ _ hww hge]
      exact ⟨rfl, rfl⟩
    · intro hlt
      have hng : ¬(TLB.VSel.green = TLB.VSel.green ∧
          (⟨gp, gd, gt⟩ : TLB.TimedDigitalLed).activeDuration / 3 ≤
            (⟨gp, gd, gt⟩ : TLB.TimedDigitalLed).activeTimer) := by
        intro hc
        simp only at hc
        omega
      have hnr : TLB.VSel.green ≠ TLB.VSel.red := by decide
      rw [TLB.tickState, TLB.tick,
        TLB.walkPhase_holdB _ _ _ _ _ _ _ _ _ hww hng hnr]
      refine ⟨rfl, rfl, ?_⟩
      by_cases hdg : gd ≤ gt + d
      · rw [TLB.cyclePhase_green_go _ _ _ _ _ _ _ _ _ _ hdg]
        simp
        omega
      · rw [TLB.cyclePhase_green_stay _ _ _ _ _ _ _ _ _ _ (by omega)]
        simp
        omega

/-- C4 (amended): on a tick whose walk-request block does not take the
early exit, at most one vehicle-phase transition occurs — the phase stays
or moves to its cyclic successor — and on a transition the overshoot
remainder is discarded: the timer of the phase restarts at zero.  (The
counterexample shows that a tick in which the early exit fires can in
addition take the yellow-to-red transition.) -/
theorem claim_C4_amended :
    (∀ (s : TL.State) (d : Nat) (b : Bool), TL.validVehiclePin s →
        ¬ TL.earlyExit s b →
        ((TL.tickState s d b).vehicleLed.ledPinNumber
            = s.vehicleLed.ledPinNumber ∨
         (TL.tickState s d b).vehicleLed.ledPinNumber
            = TL.nextPin s.vehicleLed.ledPinNumber) ∧
        ((TL.tickState s d b).vehicleLed.ledPinNumber
            ≠ s.vehicleLed.ledPinNumber →
          (TL.tickState s d b).vehicleLed.activeTimer = 0)) ∧
    (∀ (t : TLB.State) (d : Nat) (b : Bool), ¬ TLB.earlyExit t b →
        ((TLB.tickState t d b).pVehicleLed = t.pVehicleLed ∨
         (TLB.tickState t d b).pVehicleLed = t.pVehicleLed.next) ∧
        ((TLB.tickState t d b).pVehicleLed ≠ t.pVehicleLed →
          ((TLB.tickState t d b).vled t.pVehicleLed).activeTimer = 0)) := by
  constructor
  · intro s d b hv hne
    rcases TL.tick_pin_cases s d b hv hne with ⟨h1, h2, h3⟩ | ⟨h1, h2, h3⟩
    · exact ⟨Or.inl h1, fun hch => absurd h1 hch⟩
    · exact ⟨Or.inr h1, fun _ => h2⟩
  · intro t d b hne
    rcases TLB.tick_sel_cases t d b hne with ⟨h1, h2, h3⟩ | ⟨h1, h2, h3⟩
    · exact ⟨Or.inl h1, fun hch => absurd h1 hch⟩
    · exact ⟨Or.inr h1, fun _ => h2⟩

/-- C5 (amended): for every reachable state and every tick that leaves the
current phase by a normal (non-early-exit) transition, the cumulative
elapsed time in the phase at the moment of transition — the timer plus
this tick's delta — is at least the configured duration of the phase and
strictly below that duration plus this tick's delta (hence below duration
plus the largest single-tick delta of the run).  (The counterexample shows
the lower bound fails for the green occupancy ended by the early-exit
shortcut.) -/
theorem claim_C5_amended :
    (∀ (s : TL.State) (d : Nat) (b : Bool), TL.Reachable s →
        ¬ TL.earlyExit s b →
        (TL.tickState s d b).vehicleLed.ledPinNumber
            ≠ s.vehicleLed.ledPinNumber →
        TL.durationOfPin s.vehicleLed.ledPinNumber
            ≤ s.vehicleLed.activeTimer + d ∧
        s.vehicleLed.activeTimer + d
            < TL.durationOfPin s.vehicleLed.ledPinNumber + d) ∧
    (∀ (t : TLB.State) (d : Nat) (b : Bool), TLB.Reachable t →
        ¬ TLB.earlyExit t b →
        (TLB.tickState t d b).pVehicleLed ≠ t.pVehicleLed →
        t.curV.activeDuration ≤ t.curV.activeTimer + d ∧
        t.curV.activeTimer + d < t.curV.activeDuration + d) := by
  constructor
  · intro s d b hr hne hch
    obtain ⟨hv, hlt⟩ := TL.inv_pin_timer s (TL.inv_of_reachable hr)
    rcases TL.tick_pin_cases s d b hv hne with ⟨h1, _, _⟩ | ⟨_, _, h3⟩
    · exact absurd h1 hch
    · exact ⟨h3, by omega⟩
  · intro t d b hr hne hch
    have hlt := TLB.inv_cur_lt t (TLB.inv_of_reachableB hr)
    rcases TLB.tick_sel_cases t d b hne with ⟨h1, _, _⟩ | ⟨_, _, h3⟩
    · exact absurd h1 hch
    · exact ⟨h3, by omega⟩

/-- Witness for C1 at the initial state with delta 15000: the hypotheses
hold and the tick takes green to its cyclic successor. -/
theorem claim_C1_witness :
    TL.initialState.walkRequested = false ∧
    TL.validVehiclePin TL.initialState ∧
    (TL.tickState TL.initialState 15000 false).vehicleLed.ledPinNumber
      = TL.nextPin TL.initialState.vehicleLed.ledPinNumber :=
  ⟨rfl, Or.inl rfl,
    ((claim_C1_cycle_closure.1 TL.initialState 15000 rfl
      (Or.inl rfl)).2.1).mpr (by decide)⟩

/-- Witness for C2 at green with timer 5000 and a pending request: the
walk block exits to yellow with the timer reset. -/
theorem claim_C2_witness :
    (TL.walkPhase ⟨⟨TL.GREEN_PIN, 5000⟩, ⟨TL.NO_WALK_PIN, 0⟩, true⟩
        false).vehicleLed = ⟨TL.YELLOW_PIN, 0⟩ :=
  ((claim_C2_early_exit_rule.1 ⟨⟨TL.GREEN_PIN, 5000⟩, ⟨TL.NO_WALK_PIN, 0⟩,
      true⟩ 100 false rfl rfl).1 (by decide)).1

/-- Witness for C3 at the reachable state red with elapsed 4999 (reached
by ticks of 15000, 2000 and 4999 ms): the pedestrian light shows walk. -/
theorem claim_C3_witness :
    (TL.tickState (TL.tickState (TL.tickState TL.initialState 15000 false)
        2000 false) 4999 false).pedestrianLed.ledPinNumber = TL.WALK_PIN :=
  ((claim_C3_ped_derivation.1 _ (TL.Reachable.step 4999 false
      (TL.Reachable.step 2000 false (TL.Reachable.step 15000 false
        TL.Reachable.init)))).1).mpr (by decide)

/-- Witness for C4 (amended) at the initial state with a large delta
20000: the hypotheses hold and the tick advances at most one step. -/
theorem claim_C4_witness :
    TL.validVehiclePin TL.initialState ∧
    ¬ TL.earlyExit TL.initialState false ∧
    ((TL.tickState TL.initialState 20000 false).vehicleLed.ledPinNumber
        = TL.initialState.vehicleLed.ledPinNumber ∨
     (TL.tickState TL.initialState 20000 false).vehicleLed.ledPinNumber
        = TL.nextPin TL.initialState.vehicleLed.ledPinNumber) :=
  ⟨Or.inl rfl, by decide,
    (claim_C4_amended.1 TL.initialState 20000 false (Or.inl rfl)
      (by decide)).1⟩

/-- Witness for C5 (amended) at the initial state with delta 15000, a
normal green-to-yellow transition: the elapsed at transition reaches the
green duration. -/
theorem claim_C5_witness :
    TL.durationOfPin TL.initialState.vehicleLed.ledPinNumber
        ≤ TL.initialState.vehicleLed.activeTimer + 15000 :=
  (claim_C5_amended.1 TL.initialState 15000 false TL.Reachable.init
    (by decide) (by decide)).1

/-- Witness for C6 at a red state with a pending request and a push: the
tick ends with the latch cleared. -/
theorem claim_C6_witness :
    (TL.tickState ⟨⟨TL.RED_PIN, 0⟩, ⟨TL.WALK_PIN, 0⟩, true⟩
        5 true).walkRequested = false :=
  claim_C6_latch_clearing.1 ⟨⟨TL.RED_PIN, 0⟩, ⟨TL.WALK_PIN, 0⟩, true⟩ 5 true
    rfl

/-- Witness for C8 (amended) at the two initial states with a push: the
walk blocks produce the same abstract phase. -/
theorem claim_C8_witness :
    TL.phaseOf (TL.walkPhase TL.initialState true)
      = TLB.phaseOf (TLB.walkPhase TLB.initialState true) :=
  (claim_C8_amended TL.initialState TLB.initialState true (Or.inl rfl)
    (by decide) rfl rfl rfl).1

/-- Witness for C9 (amended) at red with elapsed 9500 and delta 500: the
transition tick drives the blinking don't-walk signal and ends with the
don't-walk pin. -/
theorem claim_C9_witness :
    (TL.tick ⟨⟨TL.RED_PIN, 9500⟩, ⟨TL.NO_WALK_PIN, 0⟩, false⟩
        500 false).pedEmit = PedEmit.blinking TL.NO_WALK_PIN ∧
    (TL.tickState ⟨⟨TL.RED_PIN, 9500⟩, ⟨TL.NO_WALK_PIN, 0⟩, false⟩
        500 false).pedestrianLed.ledPinNumber = TL.NO_WALK_PIN :=
  claim_C9_amended.1 ⟨⟨TL.RED_PIN, 9500⟩, ⟨TL.NO_WALK_PIN, 0⟩, false⟩ 500
    false rfl (Or.inr rfl) (by decide)

/-- Witness for C10 at a red state with a push: the walk block itself
already ends with the latch cleared. -/
theorem claim_C10_witness :
    (TL.walkPhase ⟨⟨TL.RED_PIN, 3⟩, ⟨TL.NO_WALK_PIN, 0⟩, false⟩
        true).walkRequested = false :=
  (claim_C10_yellow_red_push.1 ⟨⟨TL.RED_PIN, 3⟩, ⟨TL.NO_WALK_PIN, 0⟩, false⟩
    7 rfl).1

end TrafficSim
